import Mathlib

/-!
# ICED — the per-frame update of `src/main.c`

A shallow embedding of the body of the `while (!WindowShouldClose())` loop of
`main` (lines 73–188 and the restart handling of lines 235–245), one Lean
function per commented block of the source, composed in source order by
`frame`.

Numbers, in two layers.  The first layer computes on exact rationals (`ℚ`):
`sqrtf (d2) < r` is the decidable test `0 < r ∧ d2 < r * r`, the comparison of
the real square root (`sqrtLt_iff`).  It carries the properties that rounding
cannot change: control flow, direct comparisons of program values, and values
up to the rounding of a formula.  The second layer (`Rounded`) is the same code
with a rounding after every `float` operation, for an arbitrary arithmetic
`Arith`; `float32` is IEEE binary32 (round to nearest, ties to even, operations
evaluated in single precision one by one, finite values only).  It carries the
properties in which a rounding decides an outcome: the rectangle tests, the
overlap and the distance tests of lines 165 and 177.
-/

namespace Iced

/-! ## Constants (lines 4–12) -/

def SCREEN_W : ℚ := 800
def SCREEN_H : ℚ := 600
def GRAVITY : ℚ := 1200
def JUMP_FORCE : ℚ := -700
def MOVE_ACCEL : ℚ := 800
def AIR_ACCEL : ℚ := 600
def ICE_FRICTION : ℚ := 120
def MAX_SPEED : ℚ := 250

/-! ## Data model (lines 14–29, 66–70) -/

structure Vector2 where
  x : ℚ
  y : ℚ
  deriving DecidableEq

structure Rectangle where
  x : ℚ
  y : ℚ
  width : ℚ
  height : ℚ
  deriving DecidableEq

structure Player where
  pos : Vector2
  vel : Vector2
  w : ℚ
  h : ℚ
  grounded : Bool
  groundTime : ℚ
  deriving DecidableEq

structure Platform where
  rect : Rectangle
  deriving DecidableEq

structure Spike where
  pos : Vector2
  size : ℚ
  deriving DecidableEq

/-- The data `main` never writes after initialisation: the platform and spike
arrays and the goal. -/
structure Level where
  platforms : List Platform
  spikes : List Spike
  goalPos : Vector2
  goalSize : ℚ
  deriving DecidableEq

/-- The variables the loop body mutates: `p`, `won`, `timer`, `winTime`. -/
structure World where
  p : Player
  won : Bool
  timer : ℚ
  winTime : ℚ
  deriving DecidableEq

/-- What the frame reads from the keyboard: `left` is
`IsKeyDown(KEY_LEFT) || IsKeyDown(KEY_A)`, `right` is
`IsKeyDown(KEY_RIGHT) || IsKeyDown(KEY_D)`, `jumpPressed` is line 104 and
`restartPressed` is `IsKeyPressed(KEY_R)`. -/
structure Input where
  left : Bool
  right : Bool
  jumpPressed : Bool
  restartPressed : Bool
  deriving DecidableEq

/-! ## Library primitives -/

/-- Modelled from the spec: raylib's `CheckCollisionRecs` is not under `src/`;
the spec calls it the test that "the player's rectangle intersects the
platform's rectangle".  This is the library's strict overlap test. -/
def CheckCollisionRecs (rec1 rec2 : Rectangle) : Bool :=
  (decide (rec1.x < rec2.x + rec2.width) && decide (rec1.x + rec1.width > rec2.x)) &&
  (decide (rec1.y < rec2.y + rec2.height) && decide (rec1.y + rec1.height > rec2.y))

/-- Modelled from the spec: raylib's `GetCollisionRec` is not under `src/`;
the spec calls its result "the overlap rectangle (intersection region)".  The
zero rectangle is returned when the intersection is empty.  This is the
intersection on exact numbers; `Rounded.GetCollisionRec` rounds each sum and
difference. -/
def GetCollisionRec (rec1 rec2 : Rectangle) : Rectangle :=
  let left := if rec1.x > rec2.x then rec1.x else rec2.x
  let right1 := rec1.x + rec1.width
  let right2 := rec2.x + rec2.width
  let right := if right1 < right2 then right1 else right2
  let top := if rec1.y > rec2.y then rec1.y else rec2.y
  let bottom1 := rec1.y + rec1.height
  let bottom2 := rec2.y + rec2.height
  let bottom := if bottom1 < bottom2 then bottom1 else bottom2
  if left < right ∧ top < bottom then
    { x := left, y := top, width := right - left, height := bottom - top }
  else
    { x := 0, y := 0, width := 0, height := 0 }

/-- The C library's `copysignf x y`: the magnitude of `x` with the sign of `y`
(a rational zero counts as positive). -/
def copysignf (x y : ℚ) : ℚ :=
  if y < 0 then -|x| else |x|

/-- The comparison `sqrtf (d2) < r` of lines 165 and 177, on exact numbers: the
test of the Euclidean distance.  The test on the `dist` the code computes is
`Rounded.spikeHit`. -/
def sqrtLt (d2 r : ℚ) : Bool :=
  decide (0 < r) && decide (d2 < r * r)

/-! ## The blocks of the loop body, in source order -/

/-- Lines 75–78: `if (!won) timer += dt;`. -/
def updateTimer (dt : ℚ) (s : World) : World :=
  if !s.won then { s with timer := s.timer + dt } else s

/-- Lines 80–83: `inputX`, built by two successive `if`s. -/
def inputX (inp : Input) : ℚ :=
  let x0 : ℚ := 0
  let x1 := if inp.left then x0 - 1 else x0
  if inp.right then x1 + 1 else x1

/-- Lines 85–87: `p.vel.x += inputX * accel * dt`. -/
def horizontalMovement (dt : ℚ) (inp : Input) (p : Player) : Player :=
  let accel := if p.grounded then MOVE_ACCEL else AIR_ACCEL
  { p with vel := { p.vel with x := p.vel.x + inputX inp * accel * dt } }

/-- Lines 89–97: friction, only when grounded. -/
def applyFriction (dt : ℚ) (p : Player) : Player :=
  if p.grounded then
    let friction := ICE_FRICTION
    if |p.vel.x| > friction * dt then
      { p with vel := { p.vel with x := p.vel.x - copysignf (friction * dt) p.vel.x } }
    else
      { p with vel := { p.vel with x := 0 } }
  else p

/-- Lines 99–101: the two clamping `if`s, one after the other. -/
def clampSpeed (p : Player) : Player :=
  let p1 := if p.vel.x > MAX_SPEED then { p with vel := { p.vel with x := MAX_SPEED } } else p
  if p1.vel.x < -MAX_SPEED then { p1 with vel := { p1.vel with x := -MAX_SPEED } } else p1

/-- Lines 103–108: the jump. -/
def jump (inp : Input) (p : Player) : Player :=
  if inp.jumpPressed && p.grounded then
    { p with vel := { p.vel with y := JUMP_FORCE }, grounded := false }
  else p

/-- Lines 110–113: gravity, only when not grounded. -/
def gravity (dt : ℚ) (p : Player) : Player :=
  if !p.grounded then { p with vel := { p.vel with y := p.vel.y + GRAVITY * dt } } else p

/-- Lines 115–117: `p.pos += p.vel * dt`. -/
def updatePosition (dt : ℚ) (p : Player) : Player :=
  { p with pos := { x := p.pos.x + p.vel.x * dt, y := p.pos.y + p.vel.y * dt } }

/-- Lines 124–147: the body of the platform loop for one platform.  `playerRect`
is the rectangle captured before the loop; `p` is the player as the earlier
platforms left it. -/
def resolveCollision (playerRect : Rectangle) (p : Player) (plat : Platform) : Player :=
  if CheckCollisionRecs playerRect plat.rect then
    let overlap := GetCollisionRec playerRect plat.rect
    if overlap.width < overlap.height then
      let p1 :=
        if p.pos.x < plat.rect.x then { p with pos := { p.pos with x := p.pos.x - overlap.width } }
        else { p with pos := { p.pos with x := p.pos.x + overlap.width } }
      { p1 with vel := { p1.vel with x := 0 } }
    else
      if p.pos.y < plat.rect.y then
        { p with pos := { p.pos with y := p.pos.y - overlap.height },
                 vel := { p.vel with y := 0 }, grounded := true }
      else
        { p with pos := { p.pos with y := p.pos.y + overlap.height },
                 vel := { p.vel with y := 0 } }
  else p

/-- Line 120: `playerRect`. -/
def playerRect (p : Player) : Rectangle :=
  { x := p.pos.x, y := p.pos.y, width := p.w, height := p.h }

/-- Lines 119–148: capture `playerRect`, clear `grounded`, run the loop over the
platforms in list order. -/
def collisionDetection (platforms : List Platform) (p : Player) : Player :=
  platforms.foldl (resolveCollision (playerRect p)) { p with grounded := false }

/-- Lines 150–154: `groundTime`. -/
def updateGroundTime (dt : ℚ) (p : Player) : Player :=
  if p.grounded then { p with groundTime := 0 } else { p with groundTime := p.groundTime + dt }

/-- Lines 156–158: the two wrapping `if`s, one after the other. -/
def screenWrap (p : Player) : Player :=
  let p1 := if p.pos.x > SCREEN_W then { p with pos := { p.pos with x := -p.w } } else p
  if p1.pos.x < -p1.w then { p1 with pos := { p1.pos with x := SCREEN_W } } else p1

/-- The argument of `sqrtf` on lines 163–164 and 175–176: the squared distance
from the centre of the player's rectangle to `c`. -/
def centerDist2 (p : Player) (c : Vector2) : ℚ :=
  (p.pos.x + p.w / 2 - c.x) ^ 2 + (p.pos.y + p.h / 2 - c.y) ^ 2

/-- Line 165: the spike test, on the player as it stands. -/
def spikeHit (p : Player) (sp : Spike) : Bool :=
  sqrtLt (centerDist2 p sp.pos) (sp.size + min p.w p.h / 2)

/-- Lines 166–168 (and 185–187): back to the spawn point, timer cleared. -/
def resetToSpawn (s : World) : World :=
  { s with p := { s.p with pos := { x := 100, y := 300 }, vel := { x := 0, y := 0 } },
           timer := 0 }

/-- Lines 162–169: the body of the spike loop for one spike. -/
def spikeStep (s : World) (sp : Spike) : World :=
  if spikeHit s.p sp then resetToSpawn s else s

/-- Lines 160–170: the spike loop. -/
def checkSpikeCollision (spikes : List Spike) (s : World) : World :=
  spikes.foldl spikeStep s

/-- Line 177: the goal test. -/
def goalHit (L : Level) (p : Player) : Bool :=
  sqrtLt (centerDist2 p L.goalPos) (L.goalSize + min p.w p.h / 2)

/-- Lines 172–181: the goal check. -/
def checkGoalCollision (L : Level) (s : World) : World :=
  if !s.won then
    if goalHit L s.p then { s with won := true, winTime := s.timer } else s
  else s

/-- Lines 183–188: the fall reset. -/
def fallReset (s : World) : World :=
  if s.p.pos.y > SCREEN_H then resetToSpawn s else s

/-- Lines 235–245: the restart, handled in the drawing section. -/
def restart (inp : Input) (s : World) : World :=
  if s.won then
    if inp.restartPressed then
      { s with won := false, timer := 0,
               p := { s.p with pos := { x := 100, y := 300 }, vel := { x := 0, y := 0 } } }
    else s
  else s

/-! ## The frame, and the states at the points the properties speak of -/

/-- The player after lines 85–101: acceleration, friction, clamp. -/
def afterClamp (dt : ℚ) (inp : Input) (p : Player) : Player :=
  clampSpeed (applyFriction dt (horizontalMovement dt inp p))

/-- The player after lines 85–117, as the collision pass receives it. -/
def afterIntegration (dt : ℚ) (inp : Input) (p : Player) : Player :=
  updatePosition dt (gravity dt (jump inp (afterClamp dt inp p)))

/-- The state after lines 75–158, as the spike loop receives it. -/
def beforeSpikes (L : Level) (dt : ℚ) (inp : Input) (s : World) : World :=
  let s1 := updateTimer dt s
  { s1 with p := screenWrap (updateGroundTime dt
      (collisionDetection L.platforms (afterIntegration dt inp s1.p))) }

/-- The state after lines 75–170, as the goal check receives it. -/
def beforeGoal (L : Level) (dt : ℚ) (inp : Input) (s : World) : World :=
  checkSpikeCollision L.spikes (beforeSpikes L dt inp s)

/-- The state after lines 75–181, as the fall reset receives it. -/
def beforeFall (L : Level) (dt : ℚ) (inp : Input) (s : World) : World :=
  checkGoalCollision L (beforeGoal L dt inp s)

/-- One pass through the loop body: lines 73–188 and 235–245. -/
def frame (L : Level) (dt : ℚ) (inp : Input) (s : World) : World :=
  restart inp (fallReset (beforeFall L dt inp s))

/-- The world after `n` frames with the same `dt` and input. -/
def frames (L : Level) (dt : ℚ) (inp : Input) : Nat → World → World
  | 0, s => s
  | n + 1, s => frames L dt inp n (frame L dt inp s)

/-! ## The data of `main` (lines 35–70) -/

def platforms : List Platform :=
  [ ⟨⟨0, 500, 300, 20⟩⟩, ⟨⟨400, 450, 250, 20⟩⟩, ⟨⟨150, 350, 200, 20⟩⟩, ⟨⟨500, 300, 200, 20⟩⟩,
    ⟨⟨100, 200, 150, 20⟩⟩, ⟨⟨600, 200, 180, 20⟩⟩, ⟨⟨0, SCREEN_H - 20, SCREEN_W, 20⟩⟩ ]

def spikes : List Spike :=
  [ ⟨⟨320, 480⟩, 15⟩, ⟨⟨520, 430⟩, 15⟩, ⟨⟨670, 280⟩, 15⟩, ⟨⟨300, SCREEN_H - 40⟩, 15⟩,
    ⟨⟨500, SCREEN_H - 40⟩, 15⟩, ⟨⟨250, 330⟩, 15⟩, ⟨⟨350, 180⟩, 15⟩ ]

def goalPos : Vector2 := ⟨650, 150⟩

def goalSize : ℚ := 25

/-- The level `main` plays. -/
def level : Level := ⟨platforms, spikes, goalPos, goalSize⟩

/-- The level of the two platform scenarios: the one platform `{0,500,300,20}`
with the spikes and the goal of `main`. -/
def onePlatformLevel : Level := ⟨[⟨⟨0, 500, 300, 20⟩⟩], spikes, goalPos, goalSize⟩

/-- The world `main` starts from, with the player replaced. -/
def worldOf (p : Player) : World := ⟨p, false, 0, 0⟩

/-- The resting player of the first scenario. -/
def restingPlayer : Player := ⟨⟨50, 460⟩, ⟨0, 0⟩, 30, 40, true, 0⟩

/-- The falling player of the second scenario. -/
def fallingPlayer : Player := ⟨⟨100, -100⟩, ⟨0, 0⟩, 30, 40, false, 0⟩

/-- No key down. -/
def noInput : Input := ⟨false, false, false, false⟩

/-- The falling scenario after `k` frames in the air: the closed form of the
free fall from `(100, -100)` at `dt = 1/60`. -/
def fallState (k : Nat) : World :=
  ⟨⟨⟨100, -100 + (k : ℚ) * (k + 1) / 6⟩, ⟨0, 20 * k⟩, 30, 40, false, (k : ℚ) / 60⟩,
    false, (k : ℚ) / 60, 0⟩

/-- The world `s` with the player's `groundTime` replaced by `g`: the states
that differ from `s` only in `groundTime`. -/
def setGroundTime (g : ℚ) (s : World) : World :=
  { s with p := { s.p with groundTime := g } }

/-! ## Scenario data -/

/-- A player overlapping two platforms: `platformAbove` reaches down into its
top edge, `platformBelow` starts just under its top edge. -/
def wedgedPlayer : Player := ⟨⟨0, 0⟩, ⟨0, 5⟩, 10, 10, false, 0⟩

def platformAbove : Platform := ⟨⟨0, -8, 10, 10⟩⟩

def platformBelow : Platform := ⟨⟨0, 1, 10, 10⟩⟩

/-- A player that has sunk ten units into the first platform of `main`. -/
def landingPlayer : Player := ⟨⟨100, 470⟩, ⟨0, 600⟩, 30, 40, false, 0⟩

/-- A player in the air. -/
def airbornePlayer : Player := ⟨⟨100, 300⟩, ⟨40, -100⟩, 30, 40, false, 1 / 10⟩

/-- A grounded player sliding slowly to the right. -/
def slidingPlayer : Player := ⟨⟨50, 460⟩, ⟨1, 0⟩, 30, 40, true, 0⟩

/-- A player whose centre `(5, 5)` is at distance exactly `20` from the centre
of `boundarySpike`. -/
def boundaryPlayer : Player := ⟨⟨0, 0⟩, ⟨3, 4⟩, 10, 10, false, 0⟩

def boundarySpike : Spike := ⟨⟨17, 21⟩, 15⟩

/-- A player whose centre is the centre of the first spike of `main`. -/
def spikedPlayer : Player := ⟨⟨305, 460⟩, ⟨0, 0⟩, 30, 40, true, 0⟩

/-- A player below the bottom of the screen. -/
def fallenPlayer : Player := ⟨⟨350, 601⟩, ⟨0, 0⟩, 30, 40, false, 0⟩

/-- A player standing still on the goal. -/
def goalPlayer : Player := ⟨⟨635, 130⟩, ⟨0, 0⟩, 30, 40, true, 0⟩

/-- A world in which the goal has been reached. -/
def wonWorld : World := ⟨airbornePlayer, true, 12, 12⟩

/-- A player whose rectangle reaches from above the first platform of `main`
to below it: top at 490, bottom at 530, platform from 500 to 520. -/
def spanningPlayer : Player := ⟨⟨100, 490⟩, ⟨0, 1800⟩, 30, 40, false, 0⟩

/-- A second platform with the top of the first platform of `main`,
overlapping it. -/
def twinPlatform : Platform := ⟨⟨50, 500, 300, 20⟩⟩

/-- A player far to the right of the screen, moving right. -/
def strayPlayer : Player := ⟨⟨900, 100⟩, ⟨300, 0⟩, 30, 40, false, 0⟩

/-! ## Rounded arithmetic

The blocks above compute on exact rationals.  The blocks below are the same
lines of `main` with every `float` operation followed by a rounding `rnd`, and
with `sqrtf` and `powf` as functions of the arithmetic: `float32` is IEEE
binary32 with round-to-nearest-even (no overflow, no NaN: finite values only),
and a property proved for every `Arith` holds for it. -/

/-- The number of halvings that take `n` below 2, with `fuel` steps at most. -/
def log2Aux : Nat → Nat → Nat
  | 0, _ => 0
  | fuel + 1, n => if n < 2 then 0 else log2Aux fuel (n / 2) + 1

/-- The position of the leading bit of `n`. -/
def log2 (n : Nat) : Nat := log2Aux n n

/-- The integer nearest to `a / b`, ties to the even one. -/
def roundNearestEven (a b : Nat) : Nat :=
  let q := a / b
  let r := a % b
  if 2 * r < b then q else if b < 2 * r then q + 1 else if q % 2 = 0 then q else q + 1

/-- The exponent `e` with `2 ^ e ≤ |x| < 2 ^ (e + 1)`, for `x ≠ 0`. -/
def ilog2 (x : ℚ) : Int :=
  let a := x.num.natAbs
  let b := x.den
  let e0 : Int := (log2 a : Int) - (log2 b : Int)
  if (if 0 ≤ e0 then 2 ^ e0.toNat * b ≤ a else b ≤ a * 2 ^ (-e0).toNat) then e0 else e0 - 1

/-- The value `m * 2 ^ k`. -/
def scaleb (m : Nat) (k : Int) : ℚ :=
  if 0 ≤ k then ((m * 2 ^ k.toNat : Nat) : ℚ) else (m : ℚ) / ((2 ^ (-k).toNat : Nat) : ℚ)

/-- Rounding to binary32: 24 significant bits, least exponent `-126`, to
nearest, ties to even. -/
def round32 (x : ℚ) : ℚ :=
  if x = 0 then 0 else
    let k : Int := max (ilog2 x) (-126) - 23
    let a := x.num.natAbs
    let b := x.den
    let m := if 0 ≤ k then roundNearestEven a (b * 2 ^ k.toNat)
      else roundNearestEven (a * 2 ^ (-k).toNat) b
    if x < 0 then -scaleb m k else scaleb m k

/-- The integer square root of `n` by bits, from bit `k - 1` down. -/
def isqrtAux (n : Nat) : Nat → Nat → Nat
  | 0, r => r
  | k + 1, r => if (r + 2 ^ k) * (r + 2 ^ k) ≤ n then isqrtAux n k (r + 2 ^ k) else isqrtAux n k r

/-- The integer square root, rounded down. -/
def isqrt (n : Nat) : Nat := isqrtAux n (log2 n / 2 + 1) 0

/-- The binary32 `sqrtf`: the square root rounded to nearest, ties to even;
0 for an argument that is not positive. -/
def sqrt32 (x : ℚ) : ℚ :=
  if x ≤ 0 then 0 else
    let k : Int := max (ilog2 x / 2) (-126) - 23
    let a := x.num.natAbs
    let b := x.den
    let tn := if 0 ≤ k then a else a * 4 ^ (-k).toNat
    let td := if 0 ≤ k then b * 4 ^ k.toNat else b
    let f := isqrt (tn / td)
    let m := if 4 * tn < (2 * f + 1) * (2 * f + 1) * td then f
      else if (2 * f + 1) * (2 * f + 1) * td < 4 * tn then f + 1
      else if f % 2 = 0 then f else f + 1
    scaleb m k

/-- The arithmetic of the `float`s: the rounding that follows `+`, `-`, `*` and
`/`, and the library's `sqrtf` and `powf`. -/
structure Arith where
  rnd : ℚ → ℚ
  sqrtf : ℚ → ℚ
  powf : ℚ → ℚ → ℚ

/-- IEEE binary32: round to nearest, ties to even, after each operation, with
correctly rounded `sqrtf` and `powf` (the source raises to the power 2 only).
Overflow, NaN, fused operations and wider intermediate precision are outside
it. -/
def float32 : Arith :=
  ⟨round32, sqrt32, fun x y => round32 (x ^ y.floor.toNat)⟩

namespace Rounded

/-- Lines 75–78: `if (!won) timer += dt;`. -/
def updateTimer (A : Arith) (dt : ℚ) (s : World) : World :=
  if !s.won then { s with timer := A.rnd (s.timer + dt) } else s

/-- Lines 80–83: `inputX`, built by two successive `if`s. -/
def inputX (A : Arith) (inp : Input) : ℚ :=
  let x0 : ℚ := 0
  let x1 := if inp.left then A.rnd (x0 - 1) else x0
  if inp.right then A.rnd (x1 + 1) else x1

/-- Lines 85–87: `p.vel.x += inputX * accel * dt`. -/
def horizontalMovement (A : Arith) (dt : ℚ) (inp : Input) (p : Player) : Player :=
  let accel := if p.grounded then MOVE_ACCEL else AIR_ACCEL
  { p with vel := { p.vel with
      x := A.rnd (p.vel.x + A.rnd (A.rnd (inputX A inp * accel) * dt)) } }

/-- Lines 89–97: friction, only when grounded. -/
def applyFriction (A : Arith) (dt : ℚ) (p : Player) : Player :=
  if p.grounded then
    let friction := ICE_FRICTION
    if |p.vel.x| > A.rnd (friction * dt) then
      { p with vel := { p.vel with
          x := A.rnd (p.vel.x - copysignf (A.rnd (friction * dt)) p.vel.x) } }
    else
      { p with vel := { p.vel with x := 0 } }
  else p

/-- Lines 110–113: gravity, only when not grounded. -/
def gravity (A : Arith) (dt : ℚ) (p : Player) : Player :=
  if !p.grounded then
    { p with vel := { p.vel with y := A.rnd (p.vel.y + A.rnd (GRAVITY * dt)) } }
  else p

/-- Lines 115–117: `p.pos += p.vel * dt`. -/
def updatePosition (A : Arith) (dt : ℚ) (p : Player) : Player :=
  { p with pos := { x := A.rnd (p.pos.x + A.rnd (p.vel.x * dt)),
                    y := A.rnd (p.pos.y + A.rnd (p.vel.y * dt)) } }

/-- Modelled from the spec: raylib's `CheckCollisionRecs` is not under `src/`;
the spec calls it the test that "the player's rectangle intersects the
platform's rectangle".  The library's strict overlap test, on `float`s. -/
def CheckCollisionRecs (A : Arith) (rec1 rec2 : Rectangle) : Bool :=
  (decide (rec1.x < A.rnd (rec2.x + rec2.width)) &&
    decide (A.rnd (rec1.x + rec1.width) > rec2.x)) &&
  (decide (rec1.y < A.rnd (rec2.y + rec2.height)) &&
    decide (A.rnd (rec1.y + rec1.height) > rec2.y))

/-- Modelled from the spec: raylib's `GetCollisionRec` is not under `src/`;
the spec calls its result "the overlap rectangle (intersection region)".  The
library's computation, on `float`s. -/
def GetCollisionRec (A : Arith) (rec1 rec2 : Rectangle) : Rectangle :=
  let left := if rec1.x > rec2.x then rec1.x else rec2.x
  let right1 := A.rnd (rec1.x + rec1.width)
  let right2 := A.rnd (rec2.x + rec2.width)
  let right := if right1 < right2 then right1 else right2
  let top := if rec1.y > rec2.y then rec1.y else rec2.y
  let bottom1 := A.rnd (rec1.y + rec1.height)
  let bottom2 := A.rnd (rec2.y + rec2.height)
  let bottom := if bottom1 < bottom2 then bottom1 else bottom2
  if left < right ∧ top < bottom then
    { x := left, y := top, width := A.rnd (right - left), height := A.rnd (bottom - top) }
  else
    { x := 0, y := 0, width := 0, height := 0 }

/-- Lines 124–147: the body of the platform loop for one platform.  `playerRect`
is the rectangle captured before the loop; `p` is the player as the earlier
platforms left it. -/
def resolveCollision (A : Arith) (playerRect : Rectangle) (p : Player) (plat : Platform) :
    Player :=
  if CheckCollisionRecs A playerRect plat.rect then
    let overlap := GetCollisionRec A playerRect plat.rect
    if overlap.width < overlap.height then
      let p1 :=
        if p.pos.x < plat.rect.x then
          { p with pos := { p.pos with x := A.rnd (p.pos.x - overlap.width) } }
        else { p with pos := { p.pos with x := A.rnd (p.pos.x + overlap.width) } }
      { p1 with vel := { p1.vel with x := 0 } }
    else
      if p.pos.y < plat.rect.y then
        { p with pos := { p.pos with y := A.rnd (p.pos.y - overlap.height) },
                 vel := { p.vel with y := 0 }, grounded := true }
      else
        { p with pos := { p.pos with y := A.rnd (p.pos.y + overlap.height) },
                 vel := { p.vel with y := 0 } }
  else p

/-- Lines 119–148: capture `playerRect`, clear `grounded`, run the loop over the
platforms in list order. -/
def collisionDetection (A : Arith) (platforms : List Platform) (p : Player) : Player :=
  platforms.foldl (resolveCollision A (playerRect p)) { p with grounded := false }

/-- Lines 150–154: `groundTime`. -/
def updateGroundTime (A : Arith) (dt : ℚ) (p : Player) : Player :=
  if p.grounded then { p with groundTime := 0 }
  else { p with groundTime := A.rnd (p.groundTime + dt) }

/-- Lines 162–164 and 174–176: `dist`, from the centre of the player's
rectangle to `c`. -/
def dist (A : Arith) (p : Player) (c : Vector2) : ℚ :=
  let playerCenter : Vector2 :=
    { x := A.rnd (p.pos.x + A.rnd (p.w / 2)), y := A.rnd (p.pos.y + A.rnd (p.h / 2)) }
  A.sqrtf (A.rnd (A.powf (A.rnd (playerCenter.x - c.x)) 2 +
    A.powf (A.rnd (playerCenter.y - c.y)) 2))

/-- The right-hand side of lines 165 and 177: `size + fminf(p.w, p.h)/2`. -/
def reach (A : Arith) (p : Player) (size : ℚ) : ℚ :=
  A.rnd (size + A.rnd (min p.w p.h / 2))

/-- Line 165: the spike test, on the player as it stands. -/
def spikeHit (A : Arith) (p : Player) (sp : Spike) : Bool :=
  decide (dist A p sp.pos < reach A p sp.size)

/-- Lines 162–169: the body of the spike loop for one spike. -/
def spikeStep (A : Arith) (s : World) (sp : Spike) : World :=
  if spikeHit A s.p sp then resetToSpawn s else s

/-- Lines 160–170: the spike loop. -/
def checkSpikeCollision (A : Arith) (spikes : List Spike) (s : World) : World :=
  spikes.foldl (spikeStep A) s

/-- Line 177: the goal test. -/
def goalHit (A : Arith) (L : Level) (p : Player) : Bool :=
  decide (dist A p L.goalPos < reach A p L.goalSize)

/-- Lines 172–181: the goal check. -/
def checkGoalCollision (A : Arith) (L : Level) (s : World) : World :=
  if !s.won then
    if goalHit A L s.p then { s with won := true, winTime := s.timer } else s
  else s

/-- The player after lines 85–101: acceleration, friction, clamp. -/
def afterClamp (A : Arith) (dt : ℚ) (inp : Input) (p : Player) : Player :=
  clampSpeed (applyFriction A dt (horizontalMovement A dt inp p))

/-- The player after lines 85–117, as the collision pass receives it. -/
def afterIntegration (A : Arith) (dt : ℚ) (inp : Input) (p : Player) : Player :=
  updatePosition A dt (gravity A dt (jump inp (afterClamp A dt inp p)))

/-- The state after lines 75–158, as the spike loop receives it. -/
def beforeSpikes (A : Arith) (L : Level) (dt : ℚ) (inp : Input) (s : World) : World :=
  let s1 := updateTimer A dt s
  { s1 with p := screenWrap (updateGroundTime A dt
      (collisionDetection A L.platforms (afterIntegration A dt inp s1.p))) }

/-- The state after lines 75–170, as the goal check receives it. -/
def beforeGoal (A : Arith) (L : Level) (dt : ℚ) (inp : Input) (s : World) : World :=
  checkSpikeCollision A L.spikes (beforeSpikes A L dt inp s)

/-- The state after lines 75–181, as the fall reset receives it. -/
def beforeFall (A : Arith) (L : Level) (dt : ℚ) (inp : Input) (s : World) : World :=
  checkGoalCollision A L (beforeGoal A L dt inp s)

/-- One pass through the loop body: lines 73–188 and 235–245. -/
def frame (A : Arith) (L : Level) (dt : ℚ) (inp : Input) (s : World) : World :=
  restart inp (fallReset (beforeFall A L dt inp s))

end Rounded

/-- A player whose centre is at distance exactly `3354601 / 2 ^ 17` from the
centre of `roundingSpike`: the legs are `1145399 / 2 ^ 17` and
`3153000 / 2 ^ 17`. -/
def roundingPlayer : Player := ⟨⟨-820681 / 2 ^ 17, 531560 / 2 ^ 17⟩, ⟨3, 4⟩, 30, 40, false, 0⟩

def roundingSpike : Spike := ⟨⟨0, 0⟩, 1388521 / 2 ^ 17⟩

/-- A world of `main` with the player in the air next to its first spike,
rising at the speed one frame of gravity takes away. -/
def grazingWorld : World :=
  ⟨⟨⟨275 + 1 / 2 ^ 15, 7535939 / 16384⟩, ⟨0, -75 / 4⟩, 30, 40, false, 0⟩, false, 3, 0⟩

/-- A world of `main` with the player in the air at the edge of the goal,
rising at the speed one frame of gravity takes away. -/
def goalEdgeWorld : World :=
  ⟨⟨⟨4916979 / 8192, 14450383 / 131072⟩, ⟨0, -75 / 4⟩, 30, 40, false, 0⟩, false, 3, 0⟩

/-- The four sums of the hit test of `rec1` against `rec2` are values of the
arithmetic: rounding leaves them as they are. -/
def ExactSums (A : Arith) (rec1 rec2 : Rectangle) : Prop :=
  A.rnd (rec1.x + rec1.width) = rec1.x + rec1.width ∧
  A.rnd (rec1.y + rec1.height) = rec1.y + rec1.height ∧
  A.rnd (rec2.x + rec2.width) = rec2.x + rec2.width ∧
  A.rnd (rec2.y + rec2.height) = rec2.y + rec2.height

/-- The sums of the hit test and the width and height of the intersection of
`rec1` and `rec2` are values of the arithmetic. -/
def ExactOverlap (A : Arith) (rec1 rec2 : Rectangle) : Prop :=
  ExactSums A rec1 rec2 ∧
  A.rnd (GetCollisionRec rec1 rec2).width = (GetCollisionRec rec1 rec2).width ∧
  A.rnd (GetCollisionRec rec1 rec2).height = (GetCollisionRec rec1 rec2).height

/-- No operation of lines 124–147 for the platform `plat` rounds: the sums of
the hit test, the size of the overlap and the position the push arrives at are
values of the arithmetic. -/
def ExactResolution (A : Arith) (playerRect : Rectangle) (p : Player) (plat : Platform) :
    Prop :=
  ExactOverlap A playerRect plat.rect ∧
  A.rnd (resolveCollision playerRect p plat).pos.x = (resolveCollision playerRect p plat).pos.x ∧
  A.rnd (resolveCollision playerRect p plat).pos.y = (resolveCollision playerRect p plat).pos.y

instance (A : Arith) (rec1 rec2 : Rectangle) : Decidable (ExactSums A rec1 rec2) := by
  unfold ExactSums
  infer_instance

instance (A : Arith) (rec1 rec2 : Rectangle) : Decidable (ExactOverlap A rec1 rec2) := by
  unfold ExactOverlap
  infer_instance

instance (A : Arith) (playerRect : Rectangle) (p : Player) (plat : Platform) :
    Decidable (ExactResolution A playerRect p plat) := by
  unfold ExactResolution
  infer_instance

/-- A player in the air, drifting to the right. -/
def driftingPlayer : Player := ⟨⟨100, 300⟩, ⟨40, -100⟩, 30, 40, false, 1 / 8⟩

/-- A player above the first platform of `main`, falling so fast that one
frame of `1/64` takes its bottom edge from 500 to 530, below the platform. -/
def divingPlayer : Player := ⟨⟨100, 460⟩, ⟨0, 7605 / 4⟩, 30, 40, false, 0⟩

/-- A player just above the first platform of `main`, falling so fast that one
frame of `1/64` takes it ten units into the platform. -/
def settlingPlayer : Player := ⟨⟨100, 460⟩, ⟨0, 2485 / 4⟩, 30, 40, false, 0⟩

/-- A player whose bottom edge `512 + 2 ^ -15` is not a binary32 value. -/
def unevenPlayer : Player := ⟨⟨100, 472 + 1 / 2 ^ 15⟩, ⟨0, 0⟩, 30, 40, false, 0⟩

/-! ## Evaluation lemmas -/

theorem frames_succ (L : Level) (dt : ℚ) (inp : Input) (n : Nat) (s : World) :
    frames L dt inp (n + 1) s = frames L dt inp n (frame L dt inp s) := rfl

theorem fallState_zero : fallState 0 = worldOf fallingPlayer := by decide!

/-- Each of the first 57 frames of the fall is a free-fall frame. -/
theorem fall_step : ∀ k < 57,
    frame onePlatformLevel (1 / 60) noInput (fallState k) = fallState (k + 1) := by
  decide!

theorem fall_landing :
    frame onePlatformLevel (1 / 60) noInput (fallState 57) =
      ⟨⟨⟨100, 460⟩, ⟨0, 0⟩, 30, 40, true, 0⟩, false, 29 / 30, 0⟩ := by
  decide!

theorem frames_fall (n : Nat) : ∀ k, k + n = 57 →
    frames onePlatformLevel (1 / 60) noInput (n + 1) (fallState k) =
      ⟨⟨⟨100, 460⟩, ⟨0, 0⟩, 30, 40, true, 0⟩, false, 29 / 30, 0⟩ := by
  induction n with
  | zero =>
    intro k hk
    obtain rfl : k = 57 := by omega
    exact fall_landing
  | succ n ih =>
    intro k hk
    rw [frames_succ, fall_step k (by omega)]
    exact ih (k + 1) (by omega)

/-! ## The distance test -/

/-- The decidable test `sqrtLt` is the comparison of the real square root. -/
theorem sqrtLt_iff (d2 r : ℚ) : sqrtLt d2 r = true ↔ Real.sqrt (d2 : ℝ) < (r : ℝ) := by
  unfold sqrtLt
  simp only [Bool.and_eq_true, decide_eq_true_eq]
  constructor
  · rintro ⟨hr, hd⟩
    have hr' : (0 : ℝ) < (r : ℝ) := by exact_mod_cast hr
    have hd' : (d2 : ℝ) < (r : ℝ) ^ 2 := by
      have : ((d2 : ℚ) : ℝ) < ((r * r : ℚ) : ℝ) := by exact_mod_cast hd
      simpa [sq] using this
    exact (Real.sqrt_lt' hr').2 hd'
  · intro h
    have hr' : (0 : ℝ) < (r : ℝ) := lt_of_le_of_lt (Real.sqrt_nonneg _) h
    have hd' : (d2 : ℝ) < (r : ℝ) ^ 2 := (Real.sqrt_lt' hr').1 h
    refine ⟨by exact_mod_cast hr', ?_⟩
    have : ((d2 : ℚ) : ℝ) < ((r * r : ℚ) : ℝ) := by
      push_cast
      simpa [sq] using hd'
    exact_mod_cast this

/-- At distance exactly `r` the test fails. -/
theorem sqrtLt_of_sqrt_eq (d2 r : ℚ) (h : Real.sqrt (d2 : ℝ) = (r : ℝ)) :
    sqrtLt d2 r = false := by
  by_contra hne
  have ht : sqrtLt d2 r = true := by simpa using hne
  have := (sqrtLt_iff d2 r).1 ht
  rw [h] at this
  exact lt_irrefl _ this

/-- The spike test of line 165 is the comparison of the Euclidean distance
between the centres with `size + min(w,h)/2`. -/
theorem spikeHit_iff (p : Player) (sp : Spike) :
    spikeHit p sp = true ↔
      Real.sqrt ((centerDist2 p sp.pos : ℚ) : ℝ) < ((sp.size + min p.w p.h / 2 : ℚ) : ℝ) :=
  sqrtLt_iff _ _

/-- The goal test of line 177 is the comparison of the Euclidean distance
between the centres with `goalSize + min(w,h)/2`. -/
theorem goalHit_iff (L : Level) (p : Player) :
    goalHit L p = true ↔
      Real.sqrt ((centerDist2 p L.goalPos : ℚ) : ℝ) < ((L.goalSize + min p.w p.h / 2 : ℚ) : ℝ) :=
  sqrtLt_iff _ _

/-! ## The player blocks: what each leaves alone -/

@[simp] theorem horizontalMovement_grounded (dt : ℚ) (inp : Input) (p : Player) :
    (horizontalMovement dt inp p).grounded = p.grounded := rfl

@[simp] theorem applyFriction_grounded (dt : ℚ) (p : Player) :
    (applyFriction dt p).grounded = p.grounded := by
  simp only [applyFriction]
  split_ifs <;> rfl

@[simp] theorem clampSpeed_grounded (p : Player) : (clampSpeed p).grounded = p.grounded := by
  simp only [clampSpeed]
  split_ifs <;> rfl

@[simp] theorem afterClamp_grounded (dt : ℚ) (inp : Input) (p : Player) :
    (afterClamp dt inp p).grounded = p.grounded := by
  simp [afterClamp]

/-- The clamp of lines 99–101 puts `vel.x` in `[-250, 250]`. -/
theorem clampSpeed_bound (p : Player) :
    -250 ≤ (clampSpeed p).vel.x ∧ (clampSpeed p).vel.x ≤ 250 := by
  simp only [clampSpeed, MAX_SPEED]
  split_ifs with h1 h2 h2 <;> simp only [not_lt, gt_iff_lt] at * <;>
    constructor <;> linarith

@[simp] theorem jump_vel_x (inp : Input) (p : Player) : (jump inp p).vel.x = p.vel.x := by
  unfold jump
  split_ifs <;> rfl

@[simp] theorem gravity_vel_x (dt : ℚ) (p : Player) : (gravity dt p).vel.x = p.vel.x := by
  unfold gravity
  split_ifs <;> rfl

@[simp] theorem updatePosition_vel (dt : ℚ) (p : Player) : (updatePosition dt p).vel = p.vel := rfl

@[simp] theorem updateGroundTime_vel (dt : ℚ) (p : Player) :
    (updateGroundTime dt p).vel = p.vel := by
  unfold updateGroundTime
  split_ifs <;> rfl

@[simp] theorem screenWrap_vel (p : Player) : (screenWrap p).vel = p.vel := by
  simp only [screenWrap]
  split_ifs <;> rfl

/-- One platform either leaves `vel.x` alone or clears it. -/
theorem resolveCollision_vel_x (R : Rectangle) (p : Player) (plat : Platform) :
    (resolveCollision R p plat).vel.x = p.vel.x ∨ (resolveCollision R p plat).vel.x = 0 := by
  simp only [resolveCollision]
  split_ifs <;> simp

/-- The platform loop keeps `vel.x` inside any interval around zero. -/
theorem foldl_resolveCollision_vel_x (R : Rectangle) (platforms : List Platform) :
    ∀ p : Player, -250 ≤ p.vel.x ∧ p.vel.x ≤ 250 →
      -250 ≤ (platforms.foldl (resolveCollision R) p).vel.x ∧
        (platforms.foldl (resolveCollision R) p).vel.x ≤ 250 := by
  induction platforms with
  | nil => intro p hp; simpa using hp
  | cons plat rest ih =>
    intro p hp
    rw [List.foldl_cons]
    apply ih
    rcases resolveCollision_vel_x R p plat with h | h <;> rw [h]
    · exact hp
    · exact ⟨by norm_num, by norm_num⟩

/-- One platform leaves a cleared `vel.y` cleared. -/
theorem resolveCollision_vel_y_zero (R : Rectangle) (p : Player) (plat : Platform)
    (h : p.vel.y = 0) : (resolveCollision R p plat).vel.y = 0 := by
  simp only [resolveCollision]
  split_ifs <;> simp [h]

/-- One platform never clears `grounded`. -/
theorem resolveCollision_grounded (R : Rectangle) (p : Player) (plat : Platform)
    (h : p.grounded = true) : (resolveCollision R p plat).grounded = true := by
  simp only [resolveCollision]
  split_ifs <;> simp [h]

theorem foldl_resolveCollision_vel_y_zero (R : Rectangle) (platforms : List Platform) :
    ∀ p : Player, p.vel.y = 0 → (platforms.foldl (resolveCollision R) p).vel.y = 0 := by
  induction platforms with
  | nil => intro p hp; simpa using hp
  | cons plat rest ih =>
    intro p hp
    rw [List.foldl_cons]
    exact ih _ (resolveCollision_vel_y_zero R p plat hp)

theorem foldl_resolveCollision_grounded (R : Rectangle) (platforms : List Platform) :
    ∀ p : Player, p.grounded = true →
      (platforms.foldl (resolveCollision R) p).grounded = true := by
  induction platforms with
  | nil => intro p hp; simpa using hp
  | cons plat rest ih =>
    intro p hp
    rw [List.foldl_cons]
    exact ih _ (resolveCollision_grounded R p plat hp)

/-! ## The world blocks -/

@[simp] theorem updateTimer_p (dt : ℚ) (s : World) : (updateTimer dt s).p = s.p := by
  unfold updateTimer
  split_ifs <;> rfl

@[simp] theorem updateTimer_won (dt : ℚ) (s : World) : (updateTimer dt s).won = s.won := by
  unfold updateTimer
  split_ifs <;> rfl

@[simp] theorem updateTimer_winTime (dt : ℚ) (s : World) :
    (updateTimer dt s).winTime = s.winTime := by
  unfold updateTimer
  split_ifs <;> rfl

theorem jump_of_not_grounded (inp : Input) (p : Player) (h : p.grounded = false) :
    jump inp p = p := by
  simp [jump, h]

@[simp] theorem resetToSpawn_idem (s : World) : resetToSpawn (resetToSpawn s) = resetToSpawn s :=
  rfl

/-- After a reset the rest of the spike loop changes nothing. -/
theorem foldl_spikeStep_reset (spikes : List Spike) (s : World) :
    spikes.foldl spikeStep (resetToSpawn s) = resetToSpawn s := by
  induction spikes with
  | nil => rfl
  | cons sp rest ih =>
    rw [List.foldl_cons]
    have : spikeStep (resetToSpawn s) sp = resetToSpawn s := by
      unfold spikeStep
      split_ifs <;> rfl
    rw [this, ih]

/-- The spike loop resets once when some spike of the list is hit by the player
as the loop received it, and does nothing otherwise. -/
theorem checkSpikeCollision_eq (spikes : List Spike) (s : World) :
    checkSpikeCollision spikes s =
      if spikes.any (spikeHit s.p) then resetToSpawn s else s := by
  unfold checkSpikeCollision
  induction spikes with
  | nil => simp
  | cons sp rest ih =>
    rw [List.foldl_cons, List.any_cons]
    by_cases h : spikeHit s.p sp = true
    · have : spikeStep s sp = resetToSpawn s := by simp [spikeStep, h]
      rw [this, foldl_spikeStep_reset]
      simp [h]
    · have : spikeStep s sp = s := by simp [spikeStep, h]
      rw [this, ih]
      simp [h]

@[simp] theorem checkSpikeCollision_won (spikes : List Spike) (s : World) :
    (checkSpikeCollision spikes s).won = s.won := by
  rw [checkSpikeCollision_eq]
  split_ifs <;> rfl

@[simp] theorem checkSpikeCollision_winTime (spikes : List Spike) (s : World) :
    (checkSpikeCollision spikes s).winTime = s.winTime := by
  rw [checkSpikeCollision_eq]
  split_ifs <;> rfl

@[simp] theorem beforeSpikes_won (L : Level) (dt : ℚ) (inp : Input) (s : World) :
    (beforeSpikes L dt inp s).won = s.won := by
  simp [beforeSpikes]

@[simp] theorem beforeSpikes_winTime (L : Level) (dt : ℚ) (inp : Input) (s : World) :
    (beforeSpikes L dt inp s).winTime = s.winTime := by
  simp [beforeSpikes]

@[simp] theorem checkGoalCollision_p (L : Level) (s : World) :
    (checkGoalCollision L s).p = s.p := by
  unfold checkGoalCollision
  split_ifs <;> rfl

@[simp] theorem checkGoalCollision_timer (L : Level) (s : World) :
    (checkGoalCollision L s).timer = s.timer := by
  unfold checkGoalCollision
  split_ifs <;> rfl

@[simp] theorem fallReset_won (s : World) : (fallReset s).won = s.won := by
  unfold fallReset
  split_ifs <;> rfl

@[simp] theorem fallReset_winTime (s : World) : (fallReset s).winTime = s.winTime := by
  unfold fallReset
  split_ifs <;> rfl

/-- A state at the spawn point with the timer cleared stays so through the fall
reset and the restart. -/
theorem restart_fallReset_of_spawn (inp : Input) (s : World)
    (hpos : s.p.pos = ⟨100, 300⟩) (hvel : s.p.vel = ⟨0, 0⟩) (ht : s.timer = 0) :
    (restart inp (fallReset s)).p.pos = ⟨100, 300⟩ ∧
      (restart inp (fallReset s)).p.vel = ⟨0, 0⟩ ∧ (restart inp (fallReset s)).timer = 0 := by
  have hf : fallReset s = s := by
    have : ¬ s.p.pos.y > SCREEN_H := by
      rw [hpos]
      norm_num [SCREEN_H]
    simp [fallReset, this]
  rw [hf]
  unfold restart
  split_ifs <;> simp [hpos, hvel, ht]

/-- The restart leaves `vel.x` alone or clears it. -/
theorem restart_vel_x (inp : Input) (s : World) :
    (restart inp s).p.vel.x = s.p.vel.x ∨ (restart inp s).p.vel.x = 0 := by
  unfold restart
  split_ifs <;> simp

theorem fallReset_vel_x (s : World) :
    (fallReset s).p.vel.x = s.p.vel.x ∨ (fallReset s).p.vel.x = 0 := by
  unfold fallReset resetToSpawn
  split_ifs <;> simp

theorem checkSpikeCollision_vel_x (spikes : List Spike) (s : World) :
    (checkSpikeCollision spikes s).p.vel.x = s.p.vel.x ∨
      (checkSpikeCollision spikes s).p.vel.x = 0 := by
  rw [checkSpikeCollision_eq]
  unfold resetToSpawn
  split_ifs <;> simp

@[simp] theorem restart_winTime (inp : Input) (s : World) :
    (restart inp s).winTime = s.winTime := by
  unfold restart
  split_ifs <;> rfl

/-- The goal check does nothing once `won` is set. -/
theorem checkGoalCollision_of_won (L : Level) (s : World) (h : s.won = true) :
    checkGoalCollision L s = s := by
  simp [checkGoalCollision, h]

theorem beforeFall_of_won (L : Level) (dt : ℚ) (inp : Input) (s : World) (h : s.won = true) :
    beforeFall L dt inp s = beforeGoal L dt inp s := by
  unfold beforeFall
  exact checkGoalCollision_of_won L _ (by simp [beforeGoal, h])

/-- Without a set `won` the restart block does nothing. -/
theorem restart_of_not_won (inp : Input) (s : World) (h : s.won = false) :
    restart inp s = s := by
  simp [restart, h]

/-- The value of `inputX` for the four combinations of the two flags. -/
theorem inputX_cases (inp : Input) :
    inputX inp = (if inp.left then -1 else 0) + (if inp.right then 1 else 0) := by
  unfold inputX
  cases inp.left <;> cases inp.right <;> norm_num

/-! ## Rectangles -/

theorem CheckCollisionRecs_iff (R Q : Rectangle) :
    CheckCollisionRecs R Q = true ↔
      (R.x < Q.x + Q.width ∧ R.x + R.width > Q.x) ∧
        (R.y < Q.y + Q.height ∧ R.y + R.height > Q.y) := by
  simp [CheckCollisionRecs]

theorem CheckCollisionRecs_eq_false_iff (R Q : Rectangle) :
    CheckCollisionRecs R Q = false ↔
      ¬ ((R.x < Q.x + Q.width ∧ R.x + R.width > Q.x) ∧
        (R.y < Q.y + Q.height ∧ R.y + R.height > Q.y)) := by
  rw [← CheckCollisionRecs_iff]
  simp

/-- On rectangles of positive size that intersect, `GetCollisionRec` is the
intersection. -/
theorem GetCollisionRec_of_hit (R Q : Rectangle) (h : CheckCollisionRecs R Q = true)
    (hw : 0 < R.width) (hh : 0 < R.height) (hqw : 0 < Q.width) (hqh : 0 < Q.height) :
    (GetCollisionRec R Q).width = min (R.x + R.width) (Q.x + Q.width) - max R.x Q.x ∧
      (GetCollisionRec R Q).height = min (R.y + R.height) (Q.y + Q.height) - max R.y Q.y := by
  obtain ⟨⟨h1, h2⟩, h3, h4⟩ := (CheckCollisionRecs_iff R Q).1 h
  have hl : (if R.x > Q.x then R.x else Q.x) = max R.x Q.x := by
    split_ifs with hc
    · exact (max_eq_left (le_of_lt hc)).symm
    · exact (max_eq_right (not_lt.mp hc)).symm
  have hr : (if R.x + R.width < Q.x + Q.width then R.x + R.width else Q.x + Q.width) =
      min (R.x + R.width) (Q.x + Q.width) := by
    split_ifs with hc
    · exact (min_eq_left (le_of_lt hc)).symm
    · exact (min_eq_right (not_lt.mp hc)).symm
  have ht : (if R.y > Q.y then R.y else Q.y) = max R.y Q.y := by
    split_ifs with hc
    · exact (max_eq_left (le_of_lt hc)).symm
    · exact (max_eq_right (not_lt.mp hc)).symm
  have hb : (if R.y + R.height < Q.y + Q.height then R.y + R.height else Q.y + Q.height) =
      min (R.y + R.height) (Q.y + Q.height) := by
    split_ifs with hc
    · exact (min_eq_left (le_of_lt hc)).symm
    · exact (min_eq_right (not_lt.mp hc)).symm
  have hlr : max R.x Q.x < min (R.x + R.width) (Q.x + Q.width) := by
    rw [max_lt_iff, lt_min_iff, lt_min_iff]
    exact ⟨⟨by linarith, h1⟩, ⟨h2, by linarith⟩⟩
  have htb : max R.y Q.y < min (R.y + R.height) (Q.y + Q.height) := by
    rw [max_lt_iff, lt_min_iff, lt_min_iff]
    exact ⟨⟨by linarith, h3⟩, ⟨h4, by linarith⟩⟩
  simp only [GetCollisionRec, hl, hr, ht, hb, hlr, htb, and_self, if_true]

/-- The height of the overlap rectangle is never negative. -/
theorem GetCollisionRec_height_nonneg (R Q : Rectangle) : 0 ≤ (GetCollisionRec R Q).height := by
  simp only [GetCollisionRec]
  split_ifs <;> rename_i h <;> first | exact sub_nonneg.mpr h.2.le | exact le_refl _

@[simp] theorem playerRect_x (p : Player) : (playerRect p).x = p.pos.x := rfl

@[simp] theorem playerRect_y (p : Player) : (playerRect p).y = p.pos.y := rfl

@[simp] theorem playerRect_width (p : Player) : (playerRect p).width = p.w := rfl

@[simp] theorem playerRect_height (p : Player) : (playerRect p).height = p.h := rfl

/-! ## One platform of the loop -/

@[simp] theorem resolveCollision_w (R : Rectangle) (p : Player) (plat : Platform) :
    (resolveCollision R p plat).w = p.w := by
  simp only [resolveCollision]
  split_ifs <;> rfl

@[simp] theorem resolveCollision_h (R : Rectangle) (p : Player) (plat : Platform) :
    (resolveCollision R p plat).h = p.h := by
  simp only [resolveCollision]
  split_ifs <;> rfl

@[simp] theorem resolveCollision_groundTime (R : Rectangle) (p : Player) (plat : Platform) :
    (resolveCollision R p plat).groundTime = p.groundTime := by
  simp only [resolveCollision]
  split_ifs <;> rfl

/-- Where one platform that is hit leaves the player. -/
theorem resolveCollision_pos (R : Rectangle) (p : Player) (plat : Platform)
    (hhit : CheckCollisionRecs R plat.rect = true) :
    (resolveCollision R p plat).pos =
      if (GetCollisionRec R plat.rect).width < (GetCollisionRec R plat.rect).height then
        if p.pos.x < plat.rect.x then ⟨p.pos.x - (GetCollisionRec R plat.rect).width, p.pos.y⟩
        else ⟨p.pos.x + (GetCollisionRec R plat.rect).width, p.pos.y⟩
      else
        if p.pos.y < plat.rect.y then ⟨p.pos.x, p.pos.y - (GetCollisionRec R plat.rect).height⟩
        else ⟨p.pos.x, p.pos.y + (GetCollisionRec R plat.rect).height⟩ := by
  simp only [resolveCollision, hhit, if_true]
  split_ifs <;> rfl

/-- A platform that is not hit leaves the player as it was. -/
theorem resolveCollision_of_miss (R : Rectangle) (p : Player) (plat : Platform)
    (hmiss : CheckCollisionRecs R plat.rect = false) : resolveCollision R p plat = p := by
  simp [resolveCollision, hmiss]

/-- Platforms that are not hit leave the player as it was. -/
theorem foldl_resolveCollision_of_miss (R : Rectangle) (l : List Platform) (p : Player)
    (hmiss : ∀ x ∈ l, CheckCollisionRecs R x.rect = false) :
    l.foldl (resolveCollision R) p = p := by
  induction l with
  | nil => rfl
  | cons x rest ih =>
    rw [List.foldl_cons, resolveCollision_of_miss R p x (hmiss x (List.mem_cons_self _ _))]
    exact ih (fun y hy => hmiss y (List.mem_cons_of_mem _ hy))

/-- One platform sets `grounded` only by resolving a hit with overlap width not
less than overlap height, with the player's top above the platform's top. -/
theorem resolveCollision_grounded_origin (R : Rectangle) (p : Player) (plat : Platform)
    (h : (resolveCollision R p plat).grounded = true) :
    p.grounded = true ∨
      (CheckCollisionRecs R plat.rect = true ∧
        ¬ ((GetCollisionRec R plat.rect).width < (GetCollisionRec R plat.rect).height) ∧
        p.pos.y < plat.rect.y) := by
  by_cases hg : p.grounded = true
  · exact Or.inl hg
  · right
    simp only [resolveCollision] at h
    split_ifs at h with h1 h2 h3 h4
    · exact absurd h hg
    · exact absurd h hg
    · exact ⟨h1, h2, h4⟩
    · exact absurd h hg
    · exact absurd h hg

/-- The loop sets `grounded` only through some platform of the list. -/
theorem foldl_resolveCollision_grounded_origin (R : Rectangle) (l : List Platform) :
    ∀ p : Player, (l.foldl (resolveCollision R) p).grounded = true →
      p.grounded = true ∨ ∃ q ∈ l, CheckCollisionRecs R q.rect = true ∧
        ¬ ((GetCollisionRec R q.rect).width < (GetCollisionRec R q.rect).height) := by
  induction l with
  | nil => intro p h; exact Or.inl h
  | cons x rest ih =>
    intro p h
    rw [List.foldl_cons] at h
    rcases ih _ h with h1 | ⟨q, hq, hq1, hq2⟩
    · rcases resolveCollision_grounded_origin R p x h1 with h2 | ⟨h2, h3, _⟩
      · exact Or.inl h2
      · exact Or.inr ⟨x, List.mem_cons_self _ _, h2, h3⟩
    · exact Or.inr ⟨q, List.mem_cons_of_mem _ hq, hq1, hq2⟩

/-! ## What the blocks after the collision pass do to the player -/

/-- The player at the spawn point, at rest: what lines 166–167, 185–186 and
243–244 leave. -/
theorem resetToSpawn_p (s : World) :
    (resetToSpawn s).p = { s.p with pos := ⟨100, 300⟩, vel := ⟨0, 0⟩ } := rfl

/-- The spike loop, the goal check, the fall reset and the restart either leave
the player alone or put it at the spawn point, at rest. -/
theorem frame_p (L : Level) (dt : ℚ) (inp : Input) (s : World) :
    (frame L dt inp s).p = (beforeSpikes L dt inp s).p ∨
      (frame L dt inp s).p =
        { (beforeSpikes L dt inp s).p with pos := ⟨100, 300⟩, vel := ⟨0, 0⟩ } := by
  have h1 : (beforeFall L dt inp s).p = (beforeSpikes L dt inp s).p ∨
      (beforeFall L dt inp s).p =
        { (beforeSpikes L dt inp s).p with pos := ⟨100, 300⟩, vel := ⟨0, 0⟩ } := by
    simp only [beforeFall, beforeGoal, checkGoalCollision_p, checkSpikeCollision_eq]
    split_ifs
    · exact Or.inr rfl
    · exact Or.inl rfl
  have h2 : (fallReset (beforeFall L dt inp s)).p = (beforeSpikes L dt inp s).p ∨
      (fallReset (beforeFall L dt inp s)).p =
        { (beforeSpikes L dt inp s).p with pos := ⟨100, 300⟩, vel := ⟨0, 0⟩ } := by
    unfold fallReset
    split_ifs
    · right
      rcases h1 with h | h <;> rw [resetToSpawn_p, h]
    · exact h1
  unfold frame restart
  split_ifs
  · right
    rcases h2 with h | h <;> simp only [h]
  · exact h2
  · exact h2

@[simp] theorem updateGroundTime_grounded (dt : ℚ) (p : Player) :
    (updateGroundTime dt p).grounded = p.grounded := by
  unfold updateGroundTime
  split_ifs <;> rfl

@[simp] theorem updateGroundTime_pos (dt : ℚ) (p : Player) :
    (updateGroundTime dt p).pos = p.pos := by
  unfold updateGroundTime
  split_ifs <;> rfl

@[simp] theorem updateGroundTime_w (dt : ℚ) (p : Player) : (updateGroundTime dt p).w = p.w := by
  unfold updateGroundTime
  split_ifs <;> rfl

@[simp] theorem updateGroundTime_h (dt : ℚ) (p : Player) : (updateGroundTime dt p).h = p.h := by
  unfold updateGroundTime
  split_ifs <;> rfl

@[simp] theorem screenWrap_grounded (p : Player) : (screenWrap p).grounded = p.grounded := by
  simp only [screenWrap]
  split_ifs <;> rfl

@[simp] theorem screenWrap_w (p : Player) : (screenWrap p).w = p.w := by
  simp only [screenWrap]
  split_ifs <;> rfl

@[simp] theorem screenWrap_h (p : Player) : (screenWrap p).h = p.h := by
  simp only [screenWrap]
  split_ifs <;> rfl

@[simp] theorem screenWrap_groundTime (p : Player) :
    (screenWrap p).groundTime = p.groundTime := by
  simp only [screenWrap]
  split_ifs <;> rfl

@[simp] theorem screenWrap_pos_y (p : Player) : (screenWrap p).pos.y = p.pos.y := by
  simp only [screenWrap]
  split_ifs <;> rfl

@[simp] theorem foldl_resolveCollision_w (R : Rectangle) (l : List Platform) (p : Player) :
    (l.foldl (resolveCollision R) p).w = p.w := by
  induction l generalizing p with
  | nil => rfl
  | cons x rest ih => rw [List.foldl_cons, ih, resolveCollision_w]

@[simp] theorem foldl_resolveCollision_h (R : Rectangle) (l : List Platform) (p : Player) :
    (l.foldl (resolveCollision R) p).h = p.h := by
  induction l generalizing p with
  | nil => rfl
  | cons x rest ih => rw [List.foldl_cons, ih, resolveCollision_h]

@[simp] theorem foldl_resolveCollision_groundTime (R : Rectangle) (l : List Platform)
    (p : Player) : (l.foldl (resolveCollision R) p).groundTime = p.groundTime := by
  induction l generalizing p with
  | nil => rfl
  | cons x rest ih => rw [List.foldl_cons, ih, resolveCollision_groundTime]

@[simp] theorem collisionDetection_w (l : List Platform) (p : Player) :
    (collisionDetection l p).w = p.w := by
  simp [collisionDetection]

@[simp] theorem collisionDetection_h (l : List Platform) (p : Player) :
    (collisionDetection l p).h = p.h := by
  simp [collisionDetection]

@[simp] theorem collisionDetection_groundTime (l : List Platform) (p : Player) :
    (collisionDetection l p).groundTime = p.groundTime := by
  simp [collisionDetection]

@[simp] theorem applyFriction_w (dt : ℚ) (p : Player) : (applyFriction dt p).w = p.w := by
  simp only [applyFriction]
  split_ifs <;> rfl

@[simp] theorem applyFriction_h (dt : ℚ) (p : Player) : (applyFriction dt p).h = p.h := by
  simp only [applyFriction]
  split_ifs <;> rfl

@[simp] theorem applyFriction_groundTime (dt : ℚ) (p : Player) :
    (applyFriction dt p).groundTime = p.groundTime := by
  simp only [applyFriction]
  split_ifs <;> rfl

@[simp] theorem clampSpeed_w (p : Player) : (clampSpeed p).w = p.w := by
  simp only [clampSpeed]
  split_ifs <;> rfl

@[simp] theorem clampSpeed_h (p : Player) : (clampSpeed p).h = p.h := by
  simp only [clampSpeed]
  split_ifs <;> rfl

@[simp] theorem clampSpeed_groundTime (p : Player) :
    (clampSpeed p).groundTime = p.groundTime := by
  simp only [clampSpeed]
  split_ifs <;> rfl

@[simp] theorem jump_w (inp : Input) (p : Player) : (jump inp p).w = p.w := by
  unfold jump
  split_ifs <;> rfl

@[simp] theorem jump_h (inp : Input) (p : Player) : (jump inp p).h = p.h := by
  unfold jump
  split_ifs <;> rfl

@[simp] theorem jump_groundTime (inp : Input) (p : Player) :
    (jump inp p).groundTime = p.groundTime := by
  unfold jump
  split_ifs <;> rfl

@[simp] theorem gravity_w (dt : ℚ) (p : Player) : (gravity dt p).w = p.w := by
  unfold gravity
  split_ifs <;> rfl

@[simp] theorem gravity_h (dt : ℚ) (p : Player) : (gravity dt p).h = p.h := by
  unfold gravity
  split_ifs <;> rfl

@[simp] theorem gravity_groundTime (dt : ℚ) (p : Player) :
    (gravity dt p).groundTime = p.groundTime := by
  unfold gravity
  split_ifs <;> rfl

@[simp] theorem afterIntegration_w (dt : ℚ) (inp : Input) (p : Player) :
    (afterIntegration dt inp p).w = p.w := by
  simp [afterIntegration, afterClamp, updatePosition, horizontalMovement]

@[simp] theorem afterIntegration_h (dt : ℚ) (inp : Input) (p : Player) :
    (afterIntegration dt inp p).h = p.h := by
  simp [afterIntegration, afterClamp, updatePosition, horizontalMovement]

@[simp] theorem afterIntegration_groundTime (dt : ℚ) (inp : Input) (p : Player) :
    (afterIntegration dt inp p).groundTime = p.groundTime := by
  simp [afterIntegration, afterClamp, updatePosition, horizontalMovement]

/-- The `grounded` a frame returns is the one the collision pass computed. -/
theorem frame_grounded (L : Level) (dt : ℚ) (inp : Input) (s : World) :
    (frame L dt inp s).p.grounded =
      (collisionDetection L.platforms (afterIntegration dt inp s.p)).grounded := by
  have hb : (beforeSpikes L dt inp s).p.grounded =
      (collisionDetection L.platforms (afterIntegration dt inp s.p)).grounded := by
    simp [beforeSpikes]
  rcases frame_p L dt inp s with h | h <;> rw [h, ← hb]

/-- The width a frame returns is the one it received. -/
theorem frame_w (L : Level) (dt : ℚ) (inp : Input) (s : World) :
    (frame L dt inp s).p.w = s.p.w := by
  have hb : (beforeSpikes L dt inp s).p.w = s.p.w := by simp [beforeSpikes]
  rcases frame_p L dt inp s with h | h <;> rw [h, ← hb]

/-- The height a frame returns is the one it received. -/
theorem frame_h (L : Level) (dt : ℚ) (inp : Input) (s : World) :
    (frame L dt inp s).p.h = s.p.h := by
  have hb : (beforeSpikes L dt inp s).p.h = s.p.h := by simp [beforeSpikes]
  rcases frame_p L dt inp s with h | h <;> rw [h, ← hb]

/-- A pass in which only the platform `q` of the list can be hit is the
resolution for `q` alone. -/
theorem collisionDetection_single (pre post : List Platform) (q : Platform) (p : Player)
    (hmiss : ∀ x ∈ pre ++ post, CheckCollisionRecs (playerRect p) x.rect = false) :
    collisionDetection (pre ++ q :: post) p =
      resolveCollision (playerRect p) { p with grounded := false } q := by
  unfold collisionDetection
  rw [List.foldl_append, List.foldl_cons,
    foldl_resolveCollision_of_miss _ pre _
      (fun x hx => hmiss x (List.mem_append_left _ hx)),
    foldl_resolveCollision_of_miss _ post _
      (fun x hx => hmiss x (List.mem_append_right _ hx))]

/-! ## Frames without a hit -/

/-- A pass in which no platform is hit only clears `grounded`. -/
theorem collisionDetection_of_miss (l : List Platform) (p : Player)
    (hmiss : ∀ x ∈ l, CheckCollisionRecs (playerRect p) x.rect = false) :
    collisionDetection l p = { p with grounded := false } := by
  unfold collisionDetection
  exact foldl_resolveCollision_of_miss _ l _ hmiss

/-- A spike loop in which no spike is hit does nothing. -/
theorem checkSpikeCollision_of_miss (spikes : List Spike) (s : World)
    (hmiss : ∀ sp ∈ spikes, spikeHit s.p sp = false) : checkSpikeCollision spikes s = s := by
  have hany : ¬ spikes.any (spikeHit s.p) = true := by
    intro hx
    obtain ⟨sp, hmem, hhit⟩ := List.any_eq_true.mp hx
    rw [hmiss sp hmem] at hhit
    exact Bool.noConfusion hhit
  rw [checkSpikeCollision_eq, if_neg hany]

/-- The fall reset does nothing to a player that is not below the screen. -/
theorem fallReset_of_inside (s : World) (h : ¬ s.p.pos.y > 600) : fallReset s = s := by
  have h' : ¬ s.p.pos.y > SCREEN_H := h
  simp only [fallReset, if_neg h']

/-- The restart block does nothing unless `won` is set and the key pressed. -/
theorem restart_of_not (inp : Input) (s : World)
    (h : ¬ (s.won = true ∧ inp.restartPressed = true)) : restart inp s = s := by
  unfold restart
  split_ifs with h1 h2
  · exact absurd ⟨h1, h2⟩ h
  · rfl
  · rfl

/-! ## `groundTime` is carried along -/

theorem applyFriction_withGroundTime (dt g : ℚ) (p : Player) :
    applyFriction dt { p with groundTime := g } =
      { applyFriction dt p with groundTime := g } := by
  simp only [applyFriction]
  split_ifs <;> rfl

theorem clampSpeed_withGroundTime (g : ℚ) (p : Player) :
    clampSpeed { p with groundTime := g } = { clampSpeed p with groundTime := g } := by
  simp only [clampSpeed]
  split_ifs <;> rfl

theorem jump_withGroundTime (inp : Input) (g : ℚ) (p : Player) :
    jump inp { p with groundTime := g } = { jump inp p with groundTime := g } := by
  simp only [jump]
  split_ifs <;> rfl

theorem gravity_withGroundTime (dt g : ℚ) (p : Player) :
    gravity dt { p with groundTime := g } = { gravity dt p with groundTime := g } := by
  simp only [gravity]
  split_ifs <;> rfl

theorem afterIntegration_withGroundTime (dt : ℚ) (inp : Input) (g : ℚ) (p : Player) :
    afterIntegration dt inp { p with groundTime := g } =
      { afterIntegration dt inp p with groundTime := g } := by
  have h1 : horizontalMovement dt inp { p with groundTime := g } =
      { horizontalMovement dt inp p with groundTime := g } := rfl
  have h2 : ∀ q : Player, updatePosition dt { q with groundTime := g } =
      { updatePosition dt q with groundTime := g } := fun _ => rfl
  simp only [afterIntegration, afterClamp, h1, applyFriction_withGroundTime,
    clampSpeed_withGroundTime, jump_withGroundTime, gravity_withGroundTime, h2]

theorem resolveCollision_withGroundTime (R : Rectangle) (g : ℚ) (p : Player)
    (plat : Platform) :
    resolveCollision R { p with groundTime := g } plat =
      { resolveCollision R p plat with groundTime := g } := by
  simp only [resolveCollision]
  split_ifs <;> rfl

theorem foldl_resolveCollision_withGroundTime (R : Rectangle) (g : ℚ) (l : List Platform) :
    ∀ p : Player, l.foldl (resolveCollision R) { p with groundTime := g } =
      { l.foldl (resolveCollision R) p with groundTime := g } := by
  induction l with
  | nil => intro p; rfl
  | cons x rest ih =>
    intro p
    rw [List.foldl_cons, List.foldl_cons, resolveCollision_withGroundTime, ih]

theorem collisionDetection_withGroundTime (l : List Platform) (g : ℚ) (p : Player) :
    collisionDetection l { p with groundTime := g } =
      { collisionDetection l p with groundTime := g } := by
  unfold collisionDetection
  exact foldl_resolveCollision_withGroundTime (playerRect p) g l { p with grounded := false }

theorem updateGroundTime_withGroundTime (dt g : ℚ) (p : Player) :
    updateGroundTime dt { p with groundTime := g } =
      { updateGroundTime dt p with groundTime := if p.grounded then 0 else g + dt } := by
  simp only [updateGroundTime]
  split_ifs <;> rfl

theorem screenWrap_withGroundTime (g : ℚ) (p : Player) :
    screenWrap { p with groundTime := g } = { screenWrap p with groundTime := g } := by
  simp only [screenWrap]
  split_ifs <;> rfl

theorem updateTimer_setGroundTime (dt g : ℚ) (s : World) :
    updateTimer dt (setGroundTime g s) = setGroundTime g (updateTimer dt s) := by
  simp only [updateTimer, setGroundTime]
  split_ifs <;> rfl

theorem spikeStep_setGroundTime (g : ℚ) (s : World) (sp : Spike) :
    spikeStep (setGroundTime g s) sp = setGroundTime g (spikeStep s sp) := by
  have h : spikeHit (setGroundTime g s).p sp = spikeHit s.p sp := rfl
  simp only [spikeStep, h]
  split_ifs <;> rfl

theorem checkSpikeCollision_setGroundTime (g : ℚ) (spikes : List Spike) :
    ∀ s : World, checkSpikeCollision spikes (setGroundTime g s) =
      setGroundTime g (checkSpikeCollision spikes s) := by
  unfold checkSpikeCollision
  induction spikes with
  | nil => intro s; rfl
  | cons sp rest ih =>
    intro s
    rw [List.foldl_cons, List.foldl_cons, spikeStep_setGroundTime, ih]

theorem checkGoalCollision_setGroundTime (L : Level) (g : ℚ) (s : World) :
    checkGoalCollision L (setGroundTime g s) = setGroundTime g (checkGoalCollision L s) := by
  have h : goalHit L (setGroundTime g s).p = goalHit L s.p := rfl
  have hw : (setGroundTime g s).won = s.won := rfl
  simp only [checkGoalCollision, h, hw]
  split_ifs <;> rfl

theorem fallReset_setGroundTime (g : ℚ) (s : World) :
    fallReset (setGroundTime g s) = setGroundTime g (fallReset s) := by
  have h : (setGroundTime g s).p.pos = s.p.pos := rfl
  simp only [fallReset, h]
  split_ifs <;> rfl

theorem restart_setGroundTime (inp : Input) (g : ℚ) (s : World) :
    restart inp (setGroundTime g s) = setGroundTime g (restart inp s) := by
  have hw : (setGroundTime g s).won = s.won := rfl
  simp only [restart, hw]
  split_ifs <;> rfl

/-- The state the spike loop receives, when only `groundTime` is changed in the
state the frame receives. -/
theorem beforeSpikes_setGroundTime (L : Level) (dt : ℚ) (inp : Input) (g : ℚ) (s : World) :
    beforeSpikes L dt inp (setGroundTime g s) =
      setGroundTime (if (beforeSpikes L dt inp s).p.grounded then 0 else g + dt)
        (beforeSpikes L dt inp s) := by
  have hp : ∀ t : World, (setGroundTime g t).p = { t.p with groundTime := g } := fun _ => rfl
  have hgr : (beforeSpikes L dt inp s).p.grounded =
      (collisionDetection L.platforms (afterIntegration dt inp (updateTimer dt s).p)).grounded := by
    simp [beforeSpikes]
  rw [hgr]
  simp only [beforeSpikes, updateTimer_setGroundTime, hp, afterIntegration_withGroundTime,
    collisionDetection_withGroundTime, updateGroundTime_withGroundTime,
    screenWrap_withGroundTime]
  simp only [setGroundTime]

/-- A frame carries a changed `groundTime` through to its result and reads it
nowhere else. -/
theorem frame_setGroundTime (L : Level) (dt : ℚ) (inp : Input) (g : ℚ) (s : World) :
    frame L dt inp (setGroundTime g s) =
      setGroundTime (if (frame L dt inp s).p.grounded then 0 else g + dt)
        (frame L dt inp s) := by
  have hgr : (frame L dt inp s).p.grounded = (beforeSpikes L dt inp s).p.grounded := by
    rw [frame_grounded]
    simp [beforeSpikes]
  rw [hgr]
  simp only [frame, beforeFall, beforeGoal, beforeSpikes_setGroundTime,
    checkSpikeCollision_setGroundTime, checkGoalCollision_setGroundTime,
    fallReset_setGroundTime, restart_setGroundTime]

/-- The `groundTime` a frame returns. -/
theorem frame_groundTime (L : Level) (dt : ℚ) (inp : Input) (s : World) :
    (frame L dt inp s).p.groundTime =
      if (frame L dt inp s).p.grounded then 0 else s.p.groundTime + dt := by
  have hb : (beforeSpikes L dt inp s).p.groundTime =
      if (beforeSpikes L dt inp s).p.grounded then 0 else s.p.groundTime + dt := by
    simp only [beforeSpikes, screenWrap_groundTime, screenWrap_grounded, updateGroundTime_grounded,
      updateTimer_p]
    simp only [updateGroundTime]
    split_ifs <;> simp
  have hgr : (frame L dt inp s).p.grounded = (beforeSpikes L dt inp s).p.grounded := by
    rw [frame_grounded]
    simp [beforeSpikes]
  rw [hgr, ← hb]
  rcases frame_p L dt inp s with h | h <;> rw [h]

/-! ## Two platforms, and the screen bounds -/

/-- A positive overlap height is the height of the intersection. -/
theorem GetCollisionRec_height_of_pos (R Q : Rectangle)
    (h : 0 < (GetCollisionRec R Q).height) :
    (GetCollisionRec R Q).height =
      min (R.y + R.height) (Q.y + Q.height) - max R.y Q.y := by
  have ht : (if R.y > Q.y then R.y else Q.y) = max R.y Q.y := by
    split_ifs with hc
    · exact (max_eq_left (le_of_lt hc)).symm
    · exact (max_eq_right (not_lt.mp hc)).symm
  have hb : (if R.y + R.height < Q.y + Q.height then R.y + R.height else Q.y + Q.height) =
      min (R.y + R.height) (Q.y + Q.height) := by
    split_ifs with hc
    · exact (min_eq_left (le_of_lt hc)).symm
    · exact (min_eq_right (not_lt.mp hc)).symm
  simp only [GetCollisionRec, ht, hb] at h ⊢
  split_ifs at h ⊢ <;> first | rfl | exact absurd h (lt_irrefl _)

/-- A platform hit with overlap width not less than overlap height, whose top
is below the player's top, grounds the player. -/
theorem resolveCollision_lands (R : Rectangle) (p : Player) (plat : Platform)
    (hhit : CheckCollisionRecs R plat.rect = true)
    (hv : ¬ ((GetCollisionRec R plat.rect).width < (GetCollisionRec R plat.rect).height))
    (habove : p.pos.y < plat.rect.y) :
    (resolveCollision R p plat).grounded = true ∧
      (resolveCollision R p plat).pos =
        ⟨p.pos.x, p.pos.y - (GetCollisionRec R plat.rect).height⟩ := by
  constructor
  · simp only [resolveCollision, hhit, if_true, if_neg hv, if_pos habove]
  · rw [resolveCollision_pos R p plat hhit, if_neg hv, if_pos habove]

/-- Lines 156–158 leave `pos.x` between `-w` and the screen width. -/
theorem screenWrap_bound (p : Player) (hw : 0 ≤ p.w) :
    -p.w ≤ (screenWrap p).pos.x ∧ (screenWrap p).pos.x ≤ 800 := by
  simp only [screenWrap, SCREEN_W]
  split_ifs with h1 h2 h2 <;> simp only [not_lt, gt_iff_lt] at * <;>
    constructor <;> linarith

/-- Lines 183–188 leave `pos.y` at most the screen height. -/
theorem fallReset_pos_y_le (s : World) : (fallReset s).p.pos.y ≤ 600 := by
  simp only [fallReset, SCREEN_H]
  split_ifs with h
  · norm_num [resetToSpawn]
  · exact not_lt.mp h

/-- The restart leaves the player where it was or puts it at the spawn point. -/
theorem restart_pos (inp : Input) (s : World) :
    (restart inp s).p.pos = s.p.pos ∨ (restart inp s).p.pos = ⟨100, 300⟩ := by
  unfold restart
  split_ifs
  · exact Or.inr rfl
  · exact Or.inl rfl
  · exact Or.inl rfl

/-! ## Rounded arithmetic: the collision pass -/

@[simp] theorem rnd_resolveCollision_w (A : Arith) (R : Rectangle) (p : Player)
    (plat : Platform) : (Rounded.resolveCollision A R p plat).w = p.w := by
  simp only [Rounded.resolveCollision]
  split_ifs <;> rfl

@[simp] theorem rnd_resolveCollision_h (A : Arith) (R : Rectangle) (p : Player)
    (plat : Platform) : (Rounded.resolveCollision A R p plat).h = p.h := by
  simp only [Rounded.resolveCollision]
  split_ifs <;> rfl

/-- One platform leaves a cleared `vel.y` cleared. -/
theorem rnd_resolveCollision_vel_y_zero (A : Arith) (R : Rectangle) (p : Player)
    (plat : Platform) (h : p.vel.y = 0) : (Rounded.resolveCollision A R p plat).vel.y = 0 := by
  simp only [Rounded.resolveCollision]
  split_ifs <;> simp [h]

/-- One platform never clears `grounded`. -/
theorem rnd_resolveCollision_grounded (A : Arith) (R : Rectangle) (p : Player)
    (plat : Platform) (h : p.grounded = true) :
    (Rounded.resolveCollision A R p plat).grounded = true := by
  simp only [Rounded.resolveCollision]
  split_ifs <;> simp [h]

theorem rnd_foldl_vel_y_zero (A : Arith) (R : Rectangle) (l : List Platform) :
    ∀ p : Player, p.vel.y = 0 → (l.foldl (Rounded.resolveCollision A R) p).vel.y = 0 := by
  induction l with
  | nil => intro p hp; simpa using hp
  | cons plat rest ih =>
    intro p hp
    rw [List.foldl_cons]
    exact ih _ (rnd_resolveCollision_vel_y_zero A R p plat hp)

theorem rnd_foldl_grounded (A : Arith) (R : Rectangle) (l : List Platform) :
    ∀ p : Player, p.grounded = true →
      (l.foldl (Rounded.resolveCollision A R) p).grounded = true := by
  induction l with
  | nil => intro p hp; simpa using hp
  | cons plat rest ih =>
    intro p hp
    rw [List.foldl_cons]
    exact ih _ (rnd_resolveCollision_grounded A R p plat hp)

@[simp] theorem rnd_foldl_w (A : Arith) (R : Rectangle) (l : List Platform) (p : Player) :
    (l.foldl (Rounded.resolveCollision A R) p).w = p.w := by
  induction l generalizing p with
  | nil => rfl
  | cons x rest ih => rw [List.foldl_cons, ih, rnd_resolveCollision_w]

@[simp] theorem rnd_foldl_h (A : Arith) (R : Rectangle) (l : List Platform) (p : Player) :
    (l.foldl (Rounded.resolveCollision A R) p).h = p.h := by
  induction l generalizing p with
  | nil => rfl
  | cons x rest ih => rw [List.foldl_cons, ih, rnd_resolveCollision_h]

@[simp] theorem rnd_collisionDetection_w (A : Arith) (l : List Platform) (p : Player) :
    (Rounded.collisionDetection A l p).w = p.w := by
  simp [Rounded.collisionDetection]

@[simp] theorem rnd_collisionDetection_h (A : Arith) (l : List Platform) (p : Player) :
    (Rounded.collisionDetection A l p).h = p.h := by
  simp [Rounded.collisionDetection]

/-- A platform that is not hit leaves the player as it was. -/
theorem rnd_resolveCollision_of_miss (A : Arith) (R : Rectangle) (p : Player)
    (plat : Platform) (hmiss : Rounded.CheckCollisionRecs A R plat.rect = false) :
    Rounded.resolveCollision A R p plat = p := by
  simp [Rounded.resolveCollision, hmiss]

/-- Platforms that are not hit leave the player as it was. -/
theorem rnd_foldl_of_miss (A : Arith) (R : Rectangle) (l : List Platform) (p : Player)
    (hmiss : ∀ x ∈ l, Rounded.CheckCollisionRecs A R x.rect = false) :
    l.foldl (Rounded.resolveCollision A R) p = p := by
  induction l with
  | nil => rfl
  | cons x rest ih =>
    rw [List.foldl_cons,
      rnd_resolveCollision_of_miss A R p x (hmiss x (List.mem_cons_self _ _))]
    exact ih (fun y hy => hmiss y (List.mem_cons_of_mem _ hy))

/-- A pass in which only the platform `q` of the list can be hit is the
resolution for `q` alone. -/
theorem rnd_collisionDetection_single (A : Arith) (pre post : List Platform) (q : Platform)
    (p : Player)
    (hmiss : ∀ x ∈ pre ++ post, Rounded.CheckCollisionRecs A (playerRect p) x.rect = false) :
    Rounded.collisionDetection A (pre ++ q :: post) p =
      Rounded.resolveCollision A (playerRect p) { p with grounded := false } q := by
  unfold Rounded.collisionDetection
  rw [List.foldl_append, List.foldl_cons,
    rnd_foldl_of_miss A _ pre _ (fun x hx => hmiss x (List.mem_append_left _ hx)),
    rnd_foldl_of_miss A _ post _ (fun x hx => hmiss x (List.mem_append_right _ hx))]

/-- One platform sets `grounded` only by resolving a hit whose computed overlap
has width not less than height, with the player's top above the platform's
top. -/
theorem rnd_resolveCollision_grounded_origin (A : Arith) (R : Rectangle) (p : Player)
    (plat : Platform) (h : (Rounded.resolveCollision A R p plat).grounded = true) :
    p.grounded = true ∨
      (Rounded.CheckCollisionRecs A R plat.rect = true ∧
        ¬ ((Rounded.GetCollisionRec A R plat.rect).width <
          (Rounded.GetCollisionRec A R plat.rect).height) ∧
        p.pos.y < plat.rect.y) := by
  by_cases hg : p.grounded = true
  · exact Or.inl hg
  · right
    simp only [Rounded.resolveCollision] at h
    split_ifs at h with h1 h2 h3 h4
    · exact absurd h hg
    · exact absurd h hg
    · exact ⟨h1, h2, h4⟩
    · exact absurd h hg
    · exact absurd h hg

/-- The loop sets `grounded` only through some platform of the list. -/
theorem rnd_foldl_grounded_origin (A : Arith) (R : Rectangle) (l : List Platform) :
    ∀ p : Player, (l.foldl (Rounded.resolveCollision A R) p).grounded = true →
      p.grounded = true ∨ ∃ q ∈ l, Rounded.CheckCollisionRecs A R q.rect = true ∧
        ¬ ((Rounded.GetCollisionRec A R q.rect).width <
          (Rounded.GetCollisionRec A R q.rect).height) := by
  induction l with
  | nil => intro p h; exact Or.inl h
  | cons x rest ih =>
    intro p h
    rw [List.foldl_cons] at h
    rcases ih _ h with h1 | ⟨q, hq, hq1, hq2⟩
    · rcases rnd_resolveCollision_grounded_origin A R p x h1 with h2 | ⟨h2, h3, _⟩
      · exact Or.inl h2
      · exact Or.inr ⟨x, List.mem_cons_self _ _, h2, h3⟩
    · exact Or.inr ⟨q, List.mem_cons_of_mem _ hq, hq1, hq2⟩

/-- A platform hit with computed overlap width not less than height, whose top
is below the player's top, grounds the player and moves it up by the computed
overlap height. -/
theorem rnd_resolveCollision_lands (A : Arith) (R : Rectangle) (p : Player) (plat : Platform)
    (hhit : Rounded.CheckCollisionRecs A R plat.rect = true)
    (hv : ¬ ((Rounded.GetCollisionRec A R plat.rect).width <
      (Rounded.GetCollisionRec A R plat.rect).height))
    (habove : p.pos.y < plat.rect.y) :
    (Rounded.resolveCollision A R p plat).grounded = true ∧
      (Rounded.resolveCollision A R p plat).vel.y = 0 ∧
      (Rounded.resolveCollision A R p plat).pos =
        ⟨p.pos.x, A.rnd (p.pos.y - (Rounded.GetCollisionRec A R plat.rect).height)⟩ := by
  simp only [Rounded.resolveCollision, hhit, if_true, if_neg hv, if_pos habove, and_self]

/-- In exact arithmetic: for a player rectangle and a platform rectangle of
positive width and height that intersect, when along the axis of the push the
player either starts before the platform and ends no later than it, or starts
no earlier than the platform and ends no earlier than it, the player's
rectangle after the resolution does not intersect the platform. -/
theorem resolveCollision_separates (p : Player) (plat : Platform)
    (hw : 0 < p.w) (hh : 0 < p.h) (hqw : 0 < plat.rect.width) (hqh : 0 < plat.rect.height)
    (hhit : CheckCollisionRecs (playerRect p) plat.rect = true)
    (hx : (GetCollisionRec (playerRect p) plat.rect).width <
        (GetCollisionRec (playerRect p) plat.rect).height →
      (p.pos.x < plat.rect.x ∧ p.pos.x + p.w ≤ plat.rect.x + plat.rect.width) ∨
        (plat.rect.x ≤ p.pos.x ∧ plat.rect.x + plat.rect.width ≤ p.pos.x + p.w))
    (hy : ¬ ((GetCollisionRec (playerRect p) plat.rect).width <
        (GetCollisionRec (playerRect p) plat.rect).height) →
      (p.pos.y < plat.rect.y ∧ p.pos.y + p.h ≤ plat.rect.y + plat.rect.height) ∨
        (plat.rect.y ≤ p.pos.y ∧ plat.rect.y + plat.rect.height ≤ p.pos.y + p.h)) :
    CheckCollisionRecs (playerRect (resolveCollision (playerRect p) p plat)) plat.rect = false := by
  obtain ⟨hW, hH⟩ := GetCollisionRec_of_hit (playerRect p) plat.rect hhit hw hh hqw hqh
  simp only [playerRect_x, playerRect_y, playerRect_width, playerRect_height] at hW hH
  rw [CheckCollisionRecs_eq_false_iff]
  simp only [playerRect_x, playerRect_y, playerRect_width, playerRect_height,
    resolveCollision_w, resolveCollision_h, resolveCollision_pos _ _ _ hhit]
  by_cases hc : (GetCollisionRec (playerRect p) plat.rect).width <
      (GetCollisionRec (playerRect p) plat.rect).height
  · rcases hx hc with ⟨ha, hb⟩ | ⟨ha, hb⟩
    · rw [min_eq_left hb, max_eq_right ha.le] at hW
      simp only [if_pos hc, if_pos ha]
      rintro ⟨⟨_, hgt⟩, _⟩
      linarith
    · rw [min_eq_right hb, max_eq_left ha] at hW
      simp only [if_pos hc, if_neg (not_lt.mpr ha)]
      rintro ⟨⟨hlt, _⟩, _⟩
      linarith
  · rcases hy hc with ⟨ha, hb⟩ | ⟨ha, hb⟩
    · rw [min_eq_left hb, max_eq_right ha.le] at hH
      simp only [if_neg hc, if_pos ha]
      rintro ⟨_, _, hgt⟩
      linarith
    · rw [min_eq_right hb, max_eq_left ha] at hH
      simp only [if_neg hc, if_neg (not_lt.mpr ha)]
      rintro ⟨_, hlt, _⟩
      linarith

/-! ## Rounded arithmetic: the world blocks -/

@[simp] theorem rnd_updateTimer_p (A : Arith) (dt : ℚ) (s : World) :
    (Rounded.updateTimer A dt s).p = s.p := by
  unfold Rounded.updateTimer
  split_ifs <;> rfl

@[simp] theorem rnd_updateTimer_won (A : Arith) (dt : ℚ) (s : World) :
    (Rounded.updateTimer A dt s).won = s.won := by
  unfold Rounded.updateTimer
  split_ifs <;> rfl

@[simp] theorem rnd_updateTimer_winTime (A : Arith) (dt : ℚ) (s : World) :
    (Rounded.updateTimer A dt s).winTime = s.winTime := by
  unfold Rounded.updateTimer
  split_ifs <;> rfl

/-- After a reset the rest of the spike loop changes nothing. -/
theorem rnd_foldl_spikeStep_reset (A : Arith) (spikes : List Spike) (s : World) :
    spikes.foldl (Rounded.spikeStep A) (resetToSpawn s) = resetToSpawn s := by
  induction spikes with
  | nil => rfl
  | cons sp rest ih =>
    rw [List.foldl_cons]
    have : Rounded.spikeStep A (resetToSpawn s) sp = resetToSpawn s := by
      unfold Rounded.spikeStep
      split_ifs <;> rfl
    rw [this, ih]

/-- The spike loop resets once when the test of line 165 succeeds for some
spike of the list on the player as the loop received it, and does nothing
otherwise. -/
theorem rnd_checkSpikeCollision_eq (A : Arith) (spikes : List Spike) (s : World) :
    Rounded.checkSpikeCollision A spikes s =
      if spikes.any (Rounded.spikeHit A s.p) then resetToSpawn s else s := by
  unfold Rounded.checkSpikeCollision
  induction spikes with
  | nil => simp
  | cons sp rest ih =>
    rw [List.foldl_cons, List.any_cons]
    by_cases h : Rounded.spikeHit A s.p sp = true
    · have : Rounded.spikeStep A s sp = resetToSpawn s := by simp [Rounded.spikeStep, h]
      rw [this, rnd_foldl_spikeStep_reset]
      simp [h]
    · have : Rounded.spikeStep A s sp = s := by simp [Rounded.spikeStep, h]
      rw [this, ih]
      simp [h]

@[simp] theorem rnd_checkSpikeCollision_won (A : Arith) (spikes : List Spike) (s : World) :
    (Rounded.checkSpikeCollision A spikes s).won = s.won := by
  rw [rnd_checkSpikeCollision_eq]
  split_ifs <;> rfl

@[simp] theorem rnd_checkSpikeCollision_winTime (A : Arith) (spikes : List Spike)
    (s : World) : (Rounded.checkSpikeCollision A spikes s).winTime = s.winTime := by
  rw [rnd_checkSpikeCollision_eq]
  split_ifs <;> rfl

@[simp] theorem rnd_beforeSpikes_won (A : Arith) (L : Level) (dt : ℚ) (inp : Input)
    (s : World) : (Rounded.beforeSpikes A L dt inp s).won = s.won := by
  simp [Rounded.beforeSpikes]

@[simp] theorem rnd_beforeSpikes_winTime (A : Arith) (L : Level) (dt : ℚ) (inp : Input)
    (s : World) : (Rounded.beforeSpikes A L dt inp s).winTime = s.winTime := by
  simp [Rounded.beforeSpikes]

@[simp] theorem rnd_checkGoalCollision_p (A : Arith) (L : Level) (s : World) :
    (Rounded.checkGoalCollision A L s).p = s.p := by
  unfold Rounded.checkGoalCollision
  split_ifs <;> rfl

@[simp] theorem rnd_checkGoalCollision_timer (A : Arith) (L : Level) (s : World) :
    (Rounded.checkGoalCollision A L s).timer = s.timer := by
  unfold Rounded.checkGoalCollision
  split_ifs <;> rfl

/-! ## Rounded arithmetic: where nothing rounds -/

theorem rnd_CheckCollisionRecs_eq (A : Arith) (R Q : Rectangle) (h : ExactSums A R Q) :
    Rounded.CheckCollisionRecs A R Q = CheckCollisionRecs R Q := by
  obtain ⟨h1, h2, h3, h4⟩ := h
  simp only [Rounded.CheckCollisionRecs, CheckCollisionRecs, h1, h2, h3, h4]

theorem rnd_GetCollisionRec_eq (A : Arith) (R Q : Rectangle) (h : ExactOverlap A R Q) :
    Rounded.GetCollisionRec A R Q = GetCollisionRec R Q := by
  obtain ⟨⟨h1, h2, h3, h4⟩, hW, hH⟩ := h
  simp only [Rounded.GetCollisionRec, h1, h2, h3, h4]
  simp only [GetCollisionRec] at hW hH ⊢
  split_ifs at hW hH ⊢ <;> simp only [hW, hH]

theorem rnd_resolveCollision_eq (A : Arith) (R : Rectangle) (p : Player) (plat : Platform)
    (h : ExactResolution A R p plat) :
    Rounded.resolveCollision A R p plat = resolveCollision R p plat := by
  obtain ⟨ho, hx, hy⟩ := h
  have hc := rnd_CheckCollisionRecs_eq A R plat.rect ho.1
  have hg := rnd_GetCollisionRec_eq A R plat.rect ho
  simp only [Rounded.resolveCollision, hc, hg]
  simp only [resolveCollision] at hx hy ⊢
  split_ifs at hx hy ⊢ <;> simp_all

/-! ## Rounded arithmetic: what the frame leaves alone -/

@[simp] theorem rnd_updateGroundTime_grounded (A : Arith) (dt : ℚ) (p : Player) :
    (Rounded.updateGroundTime A dt p).grounded = p.grounded := by
  unfold Rounded.updateGroundTime
  split_ifs <;> rfl

@[simp] theorem rnd_updateGroundTime_pos (A : Arith) (dt : ℚ) (p : Player) :
    (Rounded.updateGroundTime A dt p).pos = p.pos := by
  unfold Rounded.updateGroundTime
  split_ifs <;> rfl

@[simp] theorem rnd_updateGroundTime_w (A : Arith) (dt : ℚ) (p : Player) :
    (Rounded.updateGroundTime A dt p).w = p.w := by
  unfold Rounded.updateGroundTime
  split_ifs <;> rfl

@[simp] theorem rnd_updateGroundTime_h (A : Arith) (dt : ℚ) (p : Player) :
    (Rounded.updateGroundTime A dt p).h = p.h := by
  unfold Rounded.updateGroundTime
  split_ifs <;> rfl

@[simp] theorem rnd_applyFriction_w (A : Arith) (dt : ℚ) (p : Player) :
    (Rounded.applyFriction A dt p).w = p.w := by
  simp only [Rounded.applyFriction]
  split_ifs <;> rfl

@[simp] theorem rnd_applyFriction_h (A : Arith) (dt : ℚ) (p : Player) :
    (Rounded.applyFriction A dt p).h = p.h := by
  simp only [Rounded.applyFriction]
  split_ifs <;> rfl

@[simp] theorem rnd_gravity_w (A : Arith) (dt : ℚ) (p : Player) :
    (Rounded.gravity A dt p).w = p.w := by
  unfold Rounded.gravity
  split_ifs <;> rfl

@[simp] theorem rnd_gravity_h (A : Arith) (dt : ℚ) (p : Player) :
    (Rounded.gravity A dt p).h = p.h := by
  unfold Rounded.gravity
  split_ifs <;> rfl

@[simp] theorem rnd_afterIntegration_w (A : Arith) (dt : ℚ) (inp : Input) (p : Player) :
    (Rounded.afterIntegration A dt inp p).w = p.w := by
  simp [Rounded.afterIntegration, Rounded.afterClamp, Rounded.updatePosition,
    Rounded.horizontalMovement]

@[simp] theorem rnd_afterIntegration_h (A : Arith) (dt : ℚ) (inp : Input) (p : Player) :
    (Rounded.afterIntegration A dt inp p).h = p.h := by
  simp [Rounded.afterIntegration, Rounded.afterClamp, Rounded.updatePosition,
    Rounded.horizontalMovement]

/-- The spike loop, the goal check, the fall reset and the restart either leave
the player alone or put it at the spawn point, at rest. -/
theorem rnd_frame_p (A : Arith) (L : Level) (dt : ℚ) (inp : Input) (s : World) :
    (Rounded.frame A L dt inp s).p = (Rounded.beforeSpikes A L dt inp s).p ∨
      (Rounded.frame A L dt inp s).p =
        { (Rounded.beforeSpikes A L dt inp s).p with pos := ⟨100, 300⟩, vel := ⟨0, 0⟩ } := by
  have h1 : (Rounded.beforeFall A L dt inp s).p = (Rounded.beforeSpikes A L dt inp s).p ∨
      (Rounded.beforeFall A L dt inp s).p =
        { (Rounded.beforeSpikes A L dt inp s).p with pos := ⟨100, 300⟩, vel := ⟨0, 0⟩ } := by
    simp only [Rounded.beforeFall, Rounded.beforeGoal, rnd_checkGoalCollision_p,
      rnd_checkSpikeCollision_eq]
    split_ifs
    · exact Or.inr rfl
    · exact Or.inl rfl
  have h2 : (fallReset (Rounded.beforeFall A L dt inp s)).p =
        (Rounded.beforeSpikes A L dt inp s).p ∨
      (fallReset (Rounded.beforeFall A L dt inp s)).p =
        { (Rounded.beforeSpikes A L dt inp s).p with pos := ⟨100, 300⟩, vel := ⟨0, 0⟩ } := by
    unfold fallReset
    split_ifs
    · right
      rcases h1 with h | h <;> rw [resetToSpawn_p, h]
    · exact h1
  unfold Rounded.frame restart
  split_ifs
  · right
    rcases h2 with h | h <;> simp only [h]
  · exact h2
  · exact h2

/-- The `grounded` a frame returns is the one the collision pass computed. -/
theorem rnd_frame_grounded (A : Arith) (L : Level) (dt : ℚ) (inp : Input) (s : World) :
    (Rounded.frame A L dt inp s).p.grounded =
      (Rounded.collisionDetection A L.platforms
        (Rounded.afterIntegration A dt inp s.p)).grounded := by
  have hb : (Rounded.beforeSpikes A L dt inp s).p.grounded =
      (Rounded.collisionDetection A L.platforms
        (Rounded.afterIntegration A dt inp s.p)).grounded := by
    simp [Rounded.beforeSpikes]
  rcases rnd_frame_p A L dt inp s with h | h <;> rw [h, ← hb]

/-- The width a frame returns is the one it received. -/
theorem rnd_frame_w (A : Arith) (L : Level) (dt : ℚ) (inp : Input) (s : World) :
    (Rounded.frame A L dt inp s).p.w = s.p.w := by
  have hb : (Rounded.beforeSpikes A L dt inp s).p.w = s.p.w := by simp [Rounded.beforeSpikes]
  rcases rnd_frame_p A L dt inp s with h | h <;> rw [h, ← hb]

/-- The height a frame returns is the one it received. -/
theorem rnd_frame_h (A : Arith) (L : Level) (dt : ℚ) (inp : Input) (s : World) :
    (Rounded.frame A L dt inp s).p.h = s.p.h := by
  have hb : (Rounded.beforeSpikes A L dt inp s).p.h = s.p.h := by simp [Rounded.beforeSpikes]
  rcases rnd_frame_p A L dt inp s with h | h <;> rw [h, ← hb]

/-- In exact arithmetic: a player grounded by the one platform `q`, with
positive widths and its bottom edge not below the bottom edge of `q`, is left
resting on `q`. -/
theorem resolveCollision_rests (p : Player) (q : Platform)
    (hg : (resolveCollision (playerRect p) { p with grounded := false } q).grounded = true)
    (hw : 0 < p.w) (hqw : 0 < q.rect.width)
    (hbot : p.pos.y + p.h ≤ q.rect.y + q.rect.height) :
    (resolveCollision (playerRect p) { p with grounded := false } q).pos.y + p.h = q.rect.y ∧
      (resolveCollision (playerRect p) { p with grounded := false } q).pos.x <
        q.rect.x + q.rect.width ∧
      (resolveCollision (playerRect p) { p with grounded := false } q).pos.x + p.w >
        q.rect.x := by
  rcases resolveCollision_grounded_origin _ _ _ hg with h | ⟨hhit, hv, habove⟩
  · exact Bool.noConfusion h
  · have habove' : p.pos.y < q.rect.y := habove
    obtain ⟨⟨h1, h2⟩, h3, h4⟩ := (CheckCollisionRecs_iff _ _).1 hhit
    simp only [playerRect_x, playerRect_y, playerRect_width, playerRect_height] at h1 h2 h3 h4
    have hH := (GetCollisionRec_of_hit _ _ hhit hw
      (by simp only [playerRect_height]; linarith) hqw (by linarith)).2
    simp only [playerRect_y, playerRect_height] at hH
    rw [min_eq_left hbot, max_eq_right habove'.le] at hH
    have hp := resolveCollision_pos (playerRect p) { p with grounded := false } q hhit
    rw [if_neg hv, if_pos habove] at hp
    rw [hp]
    simp only [hH]
    exact ⟨by ring, h1, h2⟩

/-! ## The properties -/

/-- C1 (resting scenario), evaluated on the code: the player of width 30 and
height 40 resting at `(50, 460)` on the platform `{0,500,300,20}`, grounded and
at rest, is returned by one frame at `dt = 1/60` without input with
`vel.y = 0` and `pos.y = 460`, but with `grounded = false`: its rectangle only
touches the platform, the strict overlap test of line 124 fails and nothing
sets `grounded` again after line 121 cleared it.  The second frame applies
gravity, sinks into the platform and lands again, so `grounded` alternates. -/
theorem resting_frame_clears_grounded :
    CheckCollisionRecs (playerRect restingPlayer) ⟨0, 500, 300, 20⟩ = false ∧
      (frame onePlatformLevel (1 / 60) noInput (worldOf restingPlayer)).p.grounded = false ∧
      (frame onePlatformLevel (1 / 60) noInput (worldOf restingPlayer)).p.vel.y = 0 ∧
      (frame onePlatformLevel (1 / 60) noInput (worldOf restingPlayer)).p.pos.y = 460 ∧
      (frames onePlatformLevel (1 / 60) noInput 2 (worldOf restingPlayer)).p.grounded = true := by
  decide!

/-- C3 (falling scenario): from `pos = (100, -100)`, `vel = (0, 0)`, not
grounded, width 30 and height 40, over the platform `{0,500,300,20}`, stepping
with `dt = 1/60` and no input, some number of frames (58) gives a state with
`pos.y = 460` and `grounded = true`. -/
theorem falling_player_lands :
    ∃ n : Nat,
      (frames onePlatformLevel (1 / 60) noInput n (worldOf fallingPlayer)).p.pos.y = 460 ∧
      (frames onePlatformLevel (1 / 60) noInput n (worldOf fallingPlayer)).p.grounded = true := by
  refine ⟨58, ?_⟩
  rw [← fallState_zero, frames_fall 57 0 (by norm_num)]
  exact ⟨rfl, rfl⟩

/-- C4 (airborne jump is a no-op): when `grounded` is false at the start of a
frame, the frame with jump pressed returns the same state as the frame with
jump not pressed, whatever `dt` and the rest of the input are. -/
theorem airborne_jump_noop (L : Level) (dt : ℚ) (inp : Input) (s : World)
    (h : s.p.grounded = false) :
    frame L dt { inp with jumpPressed := true } s =
      frame L dt { inp with jumpPressed := false } s := by
  have hj : ∀ b : Bool, afterIntegration dt { inp with jumpPressed := b } s.p =
      updatePosition dt (gravity dt (afterClamp dt inp s.p)) := by
    intro b
    unfold afterIntegration
    rw [jump_of_not_grounded _ _ (by simpa using h)]
    rfl
  simp only [frame, beforeFall, beforeGoal, beforeSpikes, updateTimer_p, hj]
  rfl

/-- Witness for C4: `airbornePlayer` in the level of `main`. -/
theorem airborne_jump_noop_witness :
    airbornePlayer.grounded = false ∧
      frame level (1 / 60) { noInput with jumpPressed := true } (worldOf airbornePlayer) =
        frame level (1 / 60) { noInput with jumpPressed := false } (worldOf airbornePlayer) :=
  ⟨rfl, airborne_jump_noop level (1 / 60) noInput (worldOf airbornePlayer) rfl⟩

/-- C6 (speed limit): for every level, state, `dt` and input, `vel.x` is in
`[-250, 250]` right after the clamp of lines 99–101 and in the state the frame
returns. -/
theorem speed_limit (L : Level) (dt : ℚ) (inp : Input) (s : World) :
    (-250 ≤ (afterClamp dt inp s.p).vel.x ∧ (afterClamp dt inp s.p).vel.x ≤ 250) ∧
      (-250 ≤ (frame L dt inp s).p.vel.x ∧ (frame L dt inp s).p.vel.x ≤ 250) := by
  have hc : -250 ≤ (afterClamp dt inp s.p).vel.x ∧ (afterClamp dt inp s.p).vel.x ≤ 250 :=
    clampSpeed_bound _
  have h0 : (-250 : ℚ) ≤ 0 ∧ (0 : ℚ) ≤ 250 := ⟨by norm_num, by norm_num⟩
  refine ⟨hc, ?_⟩
  have h1 : -250 ≤ (beforeSpikes L dt inp s).p.vel.x ∧
      (beforeSpikes L dt inp s).p.vel.x ≤ 250 := by
    simp only [beforeSpikes, screenWrap_vel, updateGroundTime_vel, collisionDetection,
      updateTimer_p]
    apply foldl_resolveCollision_vel_x
    simpa [afterIntegration] using hc
  have h2 : -250 ≤ (beforeFall L dt inp s).p.vel.x ∧
      (beforeFall L dt inp s).p.vel.x ≤ 250 := by
    simp only [beforeFall, beforeGoal, checkGoalCollision_p]
    rcases checkSpikeCollision_vel_x L.spikes (beforeSpikes L dt inp s) with h | h <;> rw [h]
    · exact h1
    · exact h0
  have h3 : -250 ≤ (fallReset (beforeFall L dt inp s)).p.vel.x ∧
      (fallReset (beforeFall L dt inp s)).p.vel.x ≤ 250 := by
    rcases fallReset_vel_x (beforeFall L dt inp s) with h | h <;> rw [h]
    · exact h2
    · exact h0
  unfold frame
  rcases restart_vel_x inp (fallReset (beforeFall L dt inp s)) with h | h <;> rw [h]
  · exact h3
  · exact h0

/-- C11 (winTime is frozen while won): from a state with `won = true`, for
every `dt` and input, the frame returns the `winTime` it received; and when
restart is not pressed it returns `won = true`. -/
theorem winTime_frozen_while_won (L : Level) (dt : ℚ) (inp : Input) (s : World)
    (hw : s.won = true) :
    (frame L dt inp s).winTime = s.winTime ∧
      (inp.restartPressed = false → (frame L dt inp s).won = true) := by
  constructor
  · simp [frame, beforeFall_of_won L dt inp s hw, beforeGoal]
  · intro hr
    have hrest : ∀ t : World, restart inp t = t := by
      intro t
      simp [restart, hr]
    simp [frame, hrest, beforeFall_of_won L dt inp s hw, beforeGoal, hw]

/-- Witness for C11: `wonWorld` in the level of `main`, no key down. -/
theorem winTime_frozen_while_won_witness :
    wonWorld.won = true ∧ noInput.restartPressed = false ∧
      (frame level (1 / 60) noInput wonWorld).winTime = wonWorld.winTime ∧
      (frame level (1 / 60) noInput wonWorld).won = true :=
  ⟨rfl, rfl, (winTime_frozen_while_won level (1 / 60) noInput wonWorld rfl).1,
    (winTime_frozen_while_won level (1 / 60) noInput wonWorld rfl).2 rfl⟩

/-- C12 (restart after win): a frame that starts with `won = true` and has the
restart key pressed returns `won = false`, `timer = 0`, `pos = (100, 300)` and
`vel = (0, 0)`. -/
theorem restart_after_win (L : Level) (dt : ℚ) (inp : Input) (s : World)
    (hw : s.won = true) (hr : inp.restartPressed = true) :
    (frame L dt inp s).won = false ∧ (frame L dt inp s).timer = 0 ∧
      (frame L dt inp s).p.pos = ⟨100, 300⟩ ∧ (frame L dt inp s).p.vel = ⟨0, 0⟩ := by
  have hwon : (beforeFall L dt inp s).won = true := by
    simp [beforeFall_of_won L dt inp s hw, beforeGoal, hw]
  simp [frame, restart, hwon, hr]

/-- Witness for C12: `wonWorld` in the level of `main`, restart pressed. -/
theorem restart_after_win_witness :
    wonWorld.won = true ∧
      (frame level (1 / 60) { noInput with restartPressed := true } wonWorld).won = false ∧
      (frame level (1 / 60) { noInput with restartPressed := true } wonWorld).timer = 0 ∧
      (frame level (1 / 60) { noInput with restartPressed := true } wonWorld).p.pos
        = ⟨100, 300⟩ ∧
      (frame level (1 / 60) { noInput with restartPressed := true } wonWorld).p.vel = ⟨0, 0⟩ :=
  ⟨rfl, restart_after_win level (1 / 60) { noInput with restartPressed := true } wonWorld
    rfl rfl⟩

/-- C14 (opposite directions cancel): `inputX` is `-1`, `0` or `1`; it is `0`
when both left and right are held; and for every level, state and `dt` the
frame with both held returns the same state as the frame with neither held. -/
theorem opposite_directions_cancel (L : Level) (dt : ℚ) (inp : Input) (s : World) :
    (inputX inp = -1 ∨ inputX inp = 0 ∨ inputX inp = 1) ∧
      inputX { inp with left := true, right := true } = 0 ∧
      frame L dt { inp with left := true, right := true } s =
        frame L dt { inp with left := false, right := false } s := by
  refine ⟨?_, ?_, ?_⟩
  · rw [inputX_cases]
    cases inp.left <;> cases inp.right <;> norm_num
  · rw [inputX_cases]
    norm_num
  · have hx : inputX { inp with left := true, right := true } =
        inputX { inp with left := false, right := false } := by
      rw [inputX_cases, inputX_cases]
      norm_num
    have hm : ∀ p : Player,
        horizontalMovement dt { inp with left := true, right := true } p =
          horizontalMovement dt { inp with left := false, right := false } p := by
      intro p
      simp only [horizontalMovement, hx]
    simp only [frame, beforeFall, beforeGoal, beforeSpikes, afterIntegration, afterClamp, hm]
    rfl

/-- C18 (groundTime is write-only): two states that differ only in
`groundTime` are taken by a frame, for the same level, `dt` and input, to
states that agree on position, velocity, size, `grounded`, `won`, `timer` and
`winTime`; and the `groundTime` a frame returns is 0 when the returned
`grounded` is true and the old `groundTime + dt` otherwise. -/
theorem groundTime_write_only (L : Level) (dt : ℚ) (inp : Input) (s : World) (g : ℚ) :
    (frame L dt inp (setGroundTime g s)).p.pos = (frame L dt inp s).p.pos ∧
      (frame L dt inp (setGroundTime g s)).p.vel = (frame L dt inp s).p.vel ∧
      (frame L dt inp (setGroundTime g s)).p.w = (frame L dt inp s).p.w ∧
      (frame L dt inp (setGroundTime g s)).p.h = (frame L dt inp s).p.h ∧
      (frame L dt inp (setGroundTime g s)).p.grounded = (frame L dt inp s).p.grounded ∧
      (frame L dt inp (setGroundTime g s)).won = (frame L dt inp s).won ∧
      (frame L dt inp (setGroundTime g s)).timer = (frame L dt inp s).timer ∧
      (frame L dt inp (setGroundTime g s)).winTime = (frame L dt inp s).winTime ∧
      (frame L dt inp s).p.groundTime =
        if (frame L dt inp s).p.grounded then 0 else s.p.groundTime + dt := by
  rw [frame_setGroundTime]
  exact ⟨rfl, rfl, rfl, rfl, rfl, rfl, rfl, rfl, frame_groundTime L dt inp s⟩

/-- C20 (the player stays inside the world bounds): for every level, state,
`dt` and input, when the player's width is not negative, the state a frame
returns has `-w ≤ pos.x ≤ 800` and `pos.y ≤ 600`. -/
theorem stays_in_bounds (L : Level) (dt : ℚ) (inp : Input) (s : World) (hw : 0 ≤ s.p.w) :
    -s.p.w ≤ (frame L dt inp s).p.pos.x ∧ (frame L dt inp s).p.pos.x ≤ 800 ∧
      (frame L dt inp s).p.pos.y ≤ 600 := by
  have hbw : (beforeSpikes L dt inp s).p.w = s.p.w := by simp [beforeSpikes]
  have hb : -s.p.w ≤ (beforeSpikes L dt inp s).p.pos.x ∧
      (beforeSpikes L dt inp s).p.pos.x ≤ 800 := by
    have := screenWrap_bound (updateGroundTime dt
      (collisionDetection L.platforms (afterIntegration dt inp (updateTimer dt s).p)))
      (by simpa using hw)
    simpa [beforeSpikes] using this
  have hx : -s.p.w ≤ (frame L dt inp s).p.pos.x ∧ (frame L dt inp s).p.pos.x ≤ 800 := by
    rcases frame_p L dt inp s with h | h <;> rw [h]
    · exact hb
    · exact ⟨by show -s.p.w ≤ 100; linarith, by show (100 : ℚ) ≤ 800; norm_num⟩
  have hy : (frame L dt inp s).p.pos.y ≤ 600 := by
    unfold frame
    rcases restart_pos inp (fallReset (beforeFall L dt inp s)) with h | h <;> rw [h]
    · exact fallReset_pos_y_le _
    · show (300 : ℚ) ≤ 600
      norm_num
  exact ⟨hx.1, hx.2, hy⟩

/-- Witness for C20: `strayPlayer`, at `pos.x = 900`, is wrapped to
`pos.x = -30`. -/
theorem stays_in_bounds_witness :
    (0 : ℚ) ≤ (worldOf strayPlayer).p.w ∧
      (frame level (1 / 60) noInput (worldOf strayPlayer)).p.pos.x = -30 ∧
      -(worldOf strayPlayer).p.w ≤ (frame level (1 / 60) noInput (worldOf strayPlayer)).p.pos.x ∧
      (frame level (1 / 60) noInput (worldOf strayPlayer)).p.pos.x ≤ 800 ∧
      (frame level (1 / 60) noInput (worldOf strayPlayer)).p.pos.y ≤ 600 :=
  ⟨by decide!, by decide!,
    stays_in_bounds level (1 / 60) noInput (worldOf strayPlayer) (by decide!)⟩

/-- C2 as stated fails, on binary32 as on exact numbers: `wedgedPlayer`
intersects `platformBelow` with computed overlap width 10 not less than
computed overlap height 9 and its top is above that platform's top, yet the
pass over `[platformAbove, platformBelow]` ends with `grounded = false`, because
`platformAbove` has pushed the player down before line 138 compares `p.pos.y`
with the top of `platformBelow`. -/
theorem landing_counterexample :
    Rounded.CheckCollisionRecs float32 (playerRect wedgedPlayer) platformBelow.rect = true ∧
      ¬ ((Rounded.GetCollisionRec float32 (playerRect wedgedPlayer) platformBelow.rect).width <
          (Rounded.GetCollisionRec float32 (playerRect wedgedPlayer) platformBelow.rect).height) ∧
      wedgedPlayer.pos.y < platformBelow.rect.y ∧
      (Rounded.collisionDetection float32 [platformAbove, platformBelow] wedgedPlayer).grounded
        = false := by
  decide!

/-- C2, amended, for every arithmetic of the `float`s: when the hit test of
line 124 succeeds for a platform `q` of the list on the rectangle captured
after integration, and the overlap rectangle line 125 computes has width not
less than height, the collision pass ends with `vel.y = 0`; and when the
player's top `pos.y`, as the platforms before `q` in the list have left it, is
above the top of `q`, the pass also ends with `grounded = true`. -/
theorem landing_sets_grounded (A : Arith) (p : Player) (pre post : List Platform)
    (q : Platform)
    (hhit : Rounded.CheckCollisionRecs A (playerRect p) q.rect = true)
    (hvert : ¬ ((Rounded.GetCollisionRec A (playerRect p) q.rect).width <
        (Rounded.GetCollisionRec A (playerRect p) q.rect).height)) :
    (Rounded.collisionDetection A (pre ++ q :: post) p).vel.y = 0 ∧
      ((Rounded.collisionDetection A pre p).pos.y < q.rect.y →
        (Rounded.collisionDetection A (pre ++ q :: post) p).grounded = true) := by
  unfold Rounded.collisionDetection
  rw [List.foldl_append, List.foldl_cons]
  constructor
  · apply rnd_foldl_vel_y_zero
    simp only [Rounded.resolveCollision, hhit, if_true, if_neg hvert]
    split_ifs <;> rfl
  · intro habove
    apply rnd_foldl_grounded
    exact (rnd_resolveCollision_lands A _ _ q hhit hvert habove).1

/-- Witness for C2, on binary32: `landingPlayer` has sunk ten units into the
first platform of `main` and into `twinPlatform`; the first platform, before
`twinPlatform` in the list, moves it up to `pos.y = 460`, still above the top of
`twinPlatform`, which grounds it again. -/
theorem landing_sets_grounded_witness :
    Rounded.CheckCollisionRecs float32 (playerRect landingPlayer) twinPlatform.rect = true ∧
      (Rounded.collisionDetection float32 [⟨⟨0, 500, 300, 20⟩⟩] landingPlayer).pos.y = 460 ∧
      (Rounded.collisionDetection float32 [⟨⟨0, 500, 300, 20⟩⟩] landingPlayer).pos.y <
        twinPlatform.rect.y ∧
      (Rounded.collisionDetection float32 ([⟨⟨0, 500, 300, 20⟩⟩] ++ twinPlatform :: platforms.tail)
        landingPlayer).vel.y = 0 ∧
      (Rounded.collisionDetection float32 ([⟨⟨0, 500, 300, 20⟩⟩] ++ twinPlatform :: platforms.tail)
        landingPlayer).grounded = true :=
  ⟨by decide!, by decide!, by decide!,
    (landing_sets_grounded float32 landingPlayer [⟨⟨0, 500, 300, 20⟩⟩] platforms.tail twinPlatform
      (by decide!) (by decide!)).1,
    (landing_sets_grounded float32 landingPlayer [⟨⟨0, 500, 300, 20⟩⟩] platforms.tail twinPlatform
      (by decide!) (by decide!)).2 (by decide!)⟩

/-- C7 as stated fails on binary32: the centre of `roundingPlayer` is at
Euclidean distance exactly `spike.size + min(w,h)/2 = 3354601 / 2 ^ 17` from
the centre of `roundingSpike`, but the `dist` that lines 163–164 compute is one
unit in the last place less than the right-hand side of line 165, and the spike
resets the player and the timer. -/
theorem spike_boundary_counterexample :
    Real.sqrt ((centerDist2 roundingPlayer roundingSpike.pos : ℚ) : ℝ) =
        ((roundingSpike.size + min roundingPlayer.w roundingPlayer.h / 2 : ℚ) : ℝ) ∧
      Rounded.dist float32 roundingPlayer roundingSpike.pos = 13418403 / 2 ^ 19 ∧
      Rounded.reach float32 roundingPlayer roundingSpike.size = 3354601 / 2 ^ 17 ∧
      Rounded.spikeStep float32 ⟨roundingPlayer, false, 5, 0⟩ roundingSpike =
        ⟨{ roundingPlayer with pos := ⟨100, 300⟩, vel := ⟨0, 0⟩ }, false, 0, 0⟩ := by
  have hd : centerDist2 roundingPlayer roundingSpike.pos = (3354601 / 2 ^ 17) ^ 2 := by decide!
  have hr : roundingSpike.size + min roundingPlayer.w roundingPlayer.h / 2 =
      3354601 / 2 ^ 17 := by decide!
  refine ⟨?_, by decide!, by decide!, by decide!⟩
  rw [hd, hr]
  push_cast
  exact Real.sqrt_sq (by positivity)

/-- C7, amended, for every arithmetic of the `float`s: when the `dist` that
lines 163–164 compute equals the right-hand side `size + fminf(w,h)/2` that
line 165 computes, the body of the spike loop for that spike leaves the state
(position, velocity, timer and all the rest) as it was. -/
theorem spike_boundary_exclusive (A : Arith) (s : World) (sp : Spike)
    (h : Rounded.dist A s.p sp.pos = Rounded.reach A s.p sp.size) :
    Rounded.spikeStep A s sp = s := by
  have hf : Rounded.spikeHit A s.p sp = false := by
    simp [Rounded.spikeHit, h]
  simp [Rounded.spikeStep, hf]

/-- Witness for C7, on binary32: `boundaryPlayer`, centre `(5, 5)`, and
`boundarySpike` at `(17, 21)` of size 15: the computed `dist` is
`20 = 15 + 10/2`. -/
theorem spike_boundary_exclusive_witness :
    Rounded.dist float32 (worldOf boundaryPlayer).p boundarySpike.pos = 20 ∧
      Rounded.reach float32 (worldOf boundaryPlayer).p boundarySpike.size = 20 ∧
      Rounded.spikeStep float32 (worldOf boundaryPlayer) boundarySpike =
        worldOf boundaryPlayer :=
  ⟨by decide!, by decide!,
    spike_boundary_exclusive float32 (worldOf boundaryPlayer) boundarySpike (by decide!)⟩

/-- C8 as stated fails on binary32: in `grazingWorld`, with `dt = 1/64` and no
key down, the player reaches the spike loop with its centre at Euclidean
distance strictly less than `15 + 30/2` from the first spike of `main`
(`spikeHit`, the exact test of `spikeHit_iff`; the squared distance is under
900 by less than a millionth), but the `dist` lines
163–164 compute is `30`, no spike resets the player, and the frame returns it
where it was with `timer = 3 + 1/64`. -/
theorem spike_hit_counterexample :
    (∃ sp ∈ level.spikes,
        spikeHit (Rounded.beforeSpikes float32 level (1 / 64) noInput grazingWorld).p sp
          = true) ∧
      Rounded.dist float32 (Rounded.beforeSpikes float32 level (1 / 64) noInput grazingWorld).p
        ⟨320, 480⟩ = 30 ∧
      (Rounded.frame float32 level (1 / 64) noInput grazingWorld).p.pos = grazingWorld.p.pos ∧
      (Rounded.frame float32 level (1 / 64) noInput grazingWorld).timer = 3 + 1 / 64 := by
  decide!

/-- C8, amended, for every arithmetic of the `float`s: when the test of line
165, on the `dist` and the right-hand side the code computes, succeeds for at
least one spike of the list on the player as the spike loop receives it (after
movement, collision resolution and screen wrap), the frame returns
`pos = (100, 300)`, `vel = (0, 0)` and `timer = 0`; and the state the spike loop
leaves is the one reset of the state it received, however many spikes are
hit. -/
theorem spike_hit_resets (A : Arith) (L : Level) (dt : ℚ) (inp : Input) (s : World)
    (h : ∃ sp ∈ L.spikes, Rounded.spikeHit A (Rounded.beforeSpikes A L dt inp s).p sp = true) :
    (Rounded.frame A L dt inp s).p.pos = ⟨100, 300⟩ ∧
      (Rounded.frame A L dt inp s).p.vel = ⟨0, 0⟩ ∧
      (Rounded.frame A L dt inp s).timer = 0 ∧
      Rounded.beforeGoal A L dt inp s = resetToSpawn (Rounded.beforeSpikes A L dt inp s) := by
  have hany : L.spikes.any (Rounded.spikeHit A (Rounded.beforeSpikes A L dt inp s).p) = true := by
    obtain ⟨sp, hmem, hhit⟩ := h
    exact List.any_eq_true.mpr ⟨sp, hmem, hhit⟩
  have hg : Rounded.beforeGoal A L dt inp s =
      resetToSpawn (Rounded.beforeSpikes A L dt inp s) := by
    unfold Rounded.beforeGoal
    rw [rnd_checkSpikeCollision_eq, if_pos hany]
  have hr := restart_fallReset_of_spawn inp (Rounded.beforeFall A L dt inp s)
    (by simp [Rounded.beforeFall, hg, resetToSpawn])
    (by simp [Rounded.beforeFall, hg, resetToSpawn])
    (by simp [Rounded.beforeFall, hg, resetToSpawn])
  exact ⟨hr.1, hr.2.1, hr.2.2, hg⟩

/-- Witness for C8, on binary32: `spikedPlayer`, centred on the first spike of
`main`, in the level of `main`, with `dt = 1/64`. -/
theorem spike_hit_resets_witness :
    (∃ sp ∈ level.spikes,
        Rounded.spikeHit float32
          (Rounded.beforeSpikes float32 level (1 / 64) noInput (worldOf spikedPlayer)).p sp
          = true) ∧
      (Rounded.frame float32 level (1 / 64) noInput (worldOf spikedPlayer)).p.pos
        = ⟨100, 300⟩ ∧
      (Rounded.frame float32 level (1 / 64) noInput (worldOf spikedPlayer)).p.vel = ⟨0, 0⟩ ∧
      (Rounded.frame float32 level (1 / 64) noInput (worldOf spikedPlayer)).timer = 0 ∧
      Rounded.beforeGoal float32 level (1 / 64) noInput (worldOf spikedPlayer) =
        resetToSpawn (Rounded.beforeSpikes float32 level (1 / 64) noInput
          (worldOf spikedPlayer)) :=
  ⟨⟨⟨⟨320, 480⟩, 15⟩, by decide!, by decide!⟩,
    spike_hit_resets float32 level (1 / 64) noInput (worldOf spikedPlayer)
      ⟨⟨⟨320, 480⟩, 15⟩, by decide!, by decide!⟩⟩

/-- C10 as stated fails on binary32: in `goalEdgeWorld`, with `dt = 1/64` and
no key down, the player reaches the goal check with its centre at Euclidean
distance not less than `25 + 30/2` from the goal (`goalHit`, the exact test of
`goalHit_iff`; the squared distance is over 1600), but the `dist` lines 175–176 compute is one unit in the last place under
40, and the frame returns `won = true` with `winTime = 3 + 1/64`. -/
theorem goal_contact_counterexample :
    goalEdgeWorld.won = false ∧ noInput.restartPressed = false ∧
      goalHit level (Rounded.beforeGoal float32 level (1 / 64) noInput goalEdgeWorld).p
        = false ∧
      Rounded.dist float32 (Rounded.beforeGoal float32 level (1 / 64) noInput goalEdgeWorld).p
        level.goalPos = 40 - 1 / 2 ^ 18 ∧
      (Rounded.frame float32 level (1 / 64) noInput goalEdgeWorld).won = true ∧
      (Rounded.frame float32 level (1 / 64) noInput goalEdgeWorld).winTime = 3 + 1 / 64 := by
  decide!

/-- C10, amended, for every arithmetic of the `float`s: in a frame that starts
with `won = false` and has no restart input, if the test of line 177, on the
`dist` and the right-hand side the code computes, succeeds on the state the
goal check receives, the frame returns `won = true` and `winTime` equal to the
`timer` of that state; if it fails, the frame returns `won = false` and the old
`winTime`; and when the test of line 165 fails for every spike in the frame,
that `timer` is the old `timer + dt`, rounded. -/
theorem goal_contact_wins (A : Arith) (L : Level) (dt : ℚ) (inp : Input) (s : World)
    (hw : s.won = false) (hr : inp.restartPressed = false) :
    (Rounded.goalHit A L (Rounded.beforeGoal A L dt inp s).p = true →
        (Rounded.frame A L dt inp s).won = true ∧
          (Rounded.frame A L dt inp s).winTime = (Rounded.beforeGoal A L dt inp s).timer) ∧
      (Rounded.goalHit A L (Rounded.beforeGoal A L dt inp s).p = false →
        (Rounded.frame A L dt inp s).won = false ∧
          (Rounded.frame A L dt inp s).winTime = s.winTime) ∧
      ((∀ sp ∈ L.spikes,
          Rounded.spikeHit A (Rounded.beforeSpikes A L dt inp s).p sp = false) →
        (Rounded.beforeGoal A L dt inp s).timer = A.rnd (s.timer + dt)) := by
  have hwon : (Rounded.beforeGoal A L dt inp s).won = false := by
    simp [Rounded.beforeGoal, hw]
  have hwt : (Rounded.beforeGoal A L dt inp s).winTime = s.winTime := by
    simp [Rounded.beforeGoal]
  have hrest : ∀ t : World, restart inp t = t := by
    intro t
    simp [restart, hr]
  refine ⟨?_, ?_, ?_⟩
  · intro hg
    have : Rounded.beforeFall A L dt inp s =
        { Rounded.beforeGoal A L dt inp s with
          won := true, winTime := (Rounded.beforeGoal A L dt inp s).timer } := by
      simp [Rounded.beforeFall, Rounded.checkGoalCollision, hwon, hg]
    simp [Rounded.frame, hrest, this]
  · intro hg
    have : Rounded.beforeFall A L dt inp s = Rounded.beforeGoal A L dt inp s := by
      simp [Rounded.beforeFall, Rounded.checkGoalCollision, hwon, hg]
    simp [Rounded.frame, hrest, this, hwon, hwt]
  · intro hno
    have hany : ¬ L.spikes.any
        (Rounded.spikeHit A (Rounded.beforeSpikes A L dt inp s).p) = true := by
      intro hx
      obtain ⟨sp, hmem, hhit⟩ := List.any_eq_true.mp hx
      rw [hno sp hmem] at hhit
      exact Bool.noConfusion hhit
    unfold Rounded.beforeGoal
    rw [rnd_checkSpikeCollision_eq, if_neg hany]
    simp [Rounded.beforeSpikes, Rounded.updateTimer, hw]

/-- Witness for C10, on binary32: `goalPlayer`, centred on the goal of `main`,
wins with `winTime = 1/64`; `driftingPlayer`, away from the goal, does not. -/
theorem goal_contact_wins_witness :
    (worldOf goalPlayer).won = false ∧ noInput.restartPressed = false ∧
      Rounded.goalHit float32 level
        (Rounded.beforeGoal float32 level (1 / 64) noInput (worldOf goalPlayer)).p = true ∧
      (Rounded.frame float32 level (1 / 64) noInput (worldOf goalPlayer)).won = true ∧
      (Rounded.frame float32 level (1 / 64) noInput (worldOf goalPlayer)).winTime = 1 / 64 ∧
      Rounded.goalHit float32 level
        (Rounded.beforeGoal float32 level (1 / 64) noInput (worldOf driftingPlayer)).p
          = false ∧
      (Rounded.frame float32 level (1 / 64) noInput (worldOf driftingPlayer)).won = false ∧
      (Rounded.frame float32 level (1 / 64) noInput (worldOf driftingPlayer)).winTime = 0 :=
  ⟨rfl, rfl, by decide!,
    ((goal_contact_wins float32 level (1 / 64) noInput (worldOf goalPlayer) rfl rfl).1
      (by decide!)).1,
    ((goal_contact_wins float32 level (1 / 64) noInput (worldOf goalPlayer) rfl rfl).1
      (by decide!)).2.trans (by decide!),
    by decide!,
    ((goal_contact_wins float32 level (1 / 64) noInput (worldOf driftingPlayer) rfl rfl).2.1
      (by decide!)).1,
    ((goal_contact_wins float32 level (1 / 64) noInput (worldOf driftingPlayer) rfl rfl).2.1
      (by decide!)).2⟩

/-- C15 as stated fails, on binary32 as on exact numbers: `spanningPlayer`
intersects the first platform of `main` with computed overlap width 30 and
height 20 and its top is above the platform's top, so it is pushed up by 20, to
`pos.y = 470`; its rectangle, from 470 to 510, still intersects the
platform. -/
theorem resolution_counterexample :
    Rounded.CheckCollisionRecs float32 (playerRect spanningPlayer) ⟨0, 500, 300, 20⟩ = true ∧
      (Rounded.resolveCollision float32 (playerRect spanningPlayer) spanningPlayer
        ⟨⟨0, 500, 300, 20⟩⟩).pos = ⟨100, 470⟩ ∧
      Rounded.CheckCollisionRecs float32
        (playerRect (Rounded.resolveCollision float32 (playerRect spanningPlayer) spanningPlayer
          ⟨⟨0, 500, 300, 20⟩⟩)) ⟨0, 500, 300, 20⟩ = true := by
  decide!

/-- C15, amended, for every arithmetic of the `float`s: for a player rectangle
and a platform rectangle of positive width and height for which the hit test
of line 124 succeeds, when along the axis of the push (x when the computed
overlap width is less than the computed overlap height, y otherwise) the player
either starts before the platform and ends no later than it, or starts no
earlier than the platform and ends no earlier than it, and no operation of the
hit test, the overlap, the push and the repeated hit test rounds, the hit test
fails on the player's rectangle after the resolution for that platform. -/
theorem resolution_separates (A : Arith) (p : Player) (plat : Platform)
    (hw : 0 < p.w) (hh : 0 < p.h) (hqw : 0 < plat.rect.width) (hqh : 0 < plat.rect.height)
    (hhit : Rounded.CheckCollisionRecs A (playerRect p) plat.rect = true)
    (hx : (Rounded.GetCollisionRec A (playerRect p) plat.rect).width <
        (Rounded.GetCollisionRec A (playerRect p) plat.rect).height →
      (p.pos.x < plat.rect.x ∧ p.pos.x + p.w ≤ plat.rect.x + plat.rect.width) ∨
        (plat.rect.x ≤ p.pos.x ∧ plat.rect.x + plat.rect.width ≤ p.pos.x + p.w))
    (hy : ¬ ((Rounded.GetCollisionRec A (playerRect p) plat.rect).width <
        (Rounded.GetCollisionRec A (playerRect p) plat.rect).height) →
      (p.pos.y < plat.rect.y ∧ p.pos.y + p.h ≤ plat.rect.y + plat.rect.height) ∨
        (plat.rect.y ≤ p.pos.y ∧ plat.rect.y + plat.rect.height ≤ p.pos.y + p.h))
    (hex : ExactResolution A (playerRect p) p plat)
    (hre : ExactSums A (playerRect (resolveCollision (playerRect p) p plat)) plat.rect) :
    Rounded.CheckCollisionRecs A
      (playerRect (Rounded.resolveCollision A (playerRect p) p plat)) plat.rect = false := by
  have hg := rnd_GetCollisionRec_eq A (playerRect p) plat.rect hex.1
  rw [rnd_CheckCollisionRecs_eq A _ _ hex.1.1] at hhit
  rw [hg] at hx hy
  rw [rnd_resolveCollision_eq A _ p plat hex, rnd_CheckCollisionRecs_eq A _ _ hre]
  exact resolveCollision_separates p plat hw hh hqw hqh hhit hx hy

/-- Witness for C15, on binary32: `landingPlayer`, ten units into the first
platform of `main` from above, is pushed up and out of it; every sum and
difference on the way is a binary32 value. -/
theorem resolution_separates_witness :
    Rounded.CheckCollisionRecs float32 (playerRect landingPlayer)
        (⟨⟨0, 500, 300, 20⟩⟩ : Platform).rect = true ∧
      (landingPlayer.pos.y < 500 ∧ landingPlayer.pos.y + landingPlayer.h ≤ 500 + 20) ∧
      ExactResolution float32 (playerRect landingPlayer) landingPlayer ⟨⟨0, 500, 300, 20⟩⟩ ∧
      Rounded.CheckCollisionRecs float32
        (playerRect (Rounded.resolveCollision float32 (playerRect landingPlayer) landingPlayer
          ⟨⟨0, 500, 300, 20⟩⟩)) (⟨⟨0, 500, 300, 20⟩⟩ : Platform).rect = false :=
  ⟨by decide!, by decide!, by decide!,
    resolution_separates float32 landingPlayer ⟨⟨0, 500, 300, 20⟩⟩ (by decide!) (by decide!)
      (by decide!) (by decide!) (by decide!) (by decide!) (by decide!) (by decide!)
      (by decide!)⟩

/-- C16 as stated fails, on binary32 as on exact numbers: in the level of
`main`, with `dt = 1/64`, `divingPlayer` is returned with `grounded = true` and
its bottom edge at 510, ten units under the top of the platform that grounded
it, and no platform of the list has the player resting on it. -/
theorem grounded_rest_counterexample :
    (Rounded.frame float32 level (1 / 64) noInput (worldOf divingPlayer)).p.grounded = true ∧
      (Rounded.frame float32 level (1 / 64) noInput (worldOf divingPlayer)).p.pos.y +
        (Rounded.frame float32 level (1 / 64) noInput (worldOf divingPlayer)).p.h = 510 ∧
      ∀ q ∈ level.platforms,
        ¬ ((Rounded.frame float32 level (1 / 64) noInput (worldOf divingPlayer)).p.pos.y +
              (Rounded.frame float32 level (1 / 64) noInput (worldOf divingPlayer)).p.h
                = q.rect.y ∧
            (Rounded.frame float32 level (1 / 64) noInput (worldOf divingPlayer)).p.pos.x <
              q.rect.x + q.rect.width ∧
            (Rounded.frame float32 level (1 / 64) noInput (worldOf divingPlayer)).p.pos.x +
              (Rounded.frame float32 level (1 / 64) noInput (worldOf divingPlayer)).p.w
                > q.rect.x) := by
  decide!

/-- C16, amended, for every arithmetic of the `float`s: if the state a frame
returns has `grounded = true`, then the hit test of line 124 succeeded on the
rectangle captured after integration for some platform of the list whose
computed overlap had width not less than height; and when `q` is the only
platform of the list for which the hit test succeeds, the player and `q` have
positive width, the player's bottom edge after integration is not below the
bottom edge of `q`, no operation of lines 124–147 for `q` rounds, and the
returned position is the one the collision pass left (no screen wrap, reset or
restart moved the player), the returned rectangle rests on `q`: `pos.y + h` is
the top of `q` and the x-extents overlap. -/
theorem grounded_rests_on_platform (A : Arith) (L : Level) (dt : ℚ) (inp : Input) (s : World)
    (hg : (Rounded.frame A L dt inp s).p.grounded = true) :
    (∃ q ∈ L.platforms,
        Rounded.CheckCollisionRecs A (playerRect (Rounded.afterIntegration A dt inp s.p)) q.rect
          = true ∧
        ¬ ((Rounded.GetCollisionRec A
              (playerRect (Rounded.afterIntegration A dt inp s.p)) q.rect).width <
          (Rounded.GetCollisionRec A
              (playerRect (Rounded.afterIntegration A dt inp s.p)) q.rect).height)) ∧
      (∀ (pre post : List Platform) (q : Platform), L.platforms = pre ++ q :: post →
        (∀ x ∈ pre ++ post,
          Rounded.CheckCollisionRecs A
            (playerRect (Rounded.afterIntegration A dt inp s.p)) x.rect = false) →
        0 < s.p.w → 0 < q.rect.width →
        (Rounded.afterIntegration A dt inp s.p).pos.y + s.p.h ≤ q.rect.y + q.rect.height →
        ExactResolution A (playerRect (Rounded.afterIntegration A dt inp s.p))
          { Rounded.afterIntegration A dt inp s.p with grounded := false } q →
        (Rounded.frame A L dt inp s).p.pos =
          (Rounded.collisionDetection A L.platforms
            (Rounded.afterIntegration A dt inp s.p)).pos →
        (Rounded.frame A L dt inp s).p.pos.y + (Rounded.frame A L dt inp s).p.h = q.rect.y ∧
          (Rounded.frame A L dt inp s).p.pos.x < q.rect.x + q.rect.width ∧
          (Rounded.frame A L dt inp s).p.pos.x + (Rounded.frame A L dt inp s).p.w >
            q.rect.x) := by
  rw [rnd_frame_grounded] at hg
  constructor
  · rcases rnd_foldl_grounded_origin A _ _ _ hg with h | h
    · exact Bool.noConfusion h
    · exact h
  · intro pre post q hl hmiss hw hqw hbot hex hpos
    rw [hl, rnd_collisionDetection_single A pre post q _ hmiss,
      rnd_resolveCollision_eq A _ _ q hex] at hg hpos
    have hr := resolveCollision_rests (Rounded.afterIntegration A dt inp s.p) q hg
      (by simpa using hw) hqw (by simpa using hbot)
    rw [hpos, rnd_frame_w, rnd_frame_h]
    simpa using hr

/-- Witness for C16, on binary32: `settlingPlayer` in the level of `main`, with
`dt = 1/64`, lands on the first platform and is returned resting on it. -/
theorem grounded_rests_on_platform_witness :
    (Rounded.frame float32 level (1 / 64) noInput (worldOf settlingPlayer)).p.grounded = true ∧
      ExactResolution float32
        (playerRect (Rounded.afterIntegration float32 (1 / 64) noInput (worldOf settlingPlayer).p))
        { Rounded.afterIntegration float32 (1 / 64) noInput (worldOf settlingPlayer).p with
          grounded := false } ⟨⟨0, 500, 300, 20⟩⟩ ∧
      (Rounded.frame float32 level (1 / 64) noInput (worldOf settlingPlayer)).p.pos.y +
        (Rounded.frame float32 level (1 / 64) noInput (worldOf settlingPlayer)).p.h = 500 ∧
      (Rounded.frame float32 level (1 / 64) noInput (worldOf settlingPlayer)).p.pos.x < 0 + 300 ∧
      (Rounded.frame float32 level (1 / 64) noInput (worldOf settlingPlayer)).p.pos.x +
        (Rounded.frame float32 level (1 / 64) noInput (worldOf settlingPlayer)).p.w > 0 :=
  ⟨by decide!, by decide!,
    (grounded_rests_on_platform float32 level (1 / 64) noInput (worldOf settlingPlayer)
      (by decide!)).2 [] platforms.tail ⟨⟨0, 500, 300, 20⟩⟩ rfl (by decide!) (by decide!)
      (by decide!) (by decide!) (by decide!) (by decide!)⟩

/-- C19 as stated fails, on binary32 as on exact numbers: `spanningPlayer`
overlaps the first platform of `main` and `twinPlatform`, which have the same
top 500, from above, each with computed overlap width 30 and height 20; the pass
moves `pos.y` up by 40 and sets `grounded`, but leaves the bottom edge at 490,
10 above the top and not 20. -/
theorem corrections_counterexample :
    Rounded.CheckCollisionRecs float32 (playerRect spanningPlayer) ⟨0, 500, 300, 20⟩ = true ∧
      Rounded.CheckCollisionRecs float32 (playerRect spanningPlayer) twinPlatform.rect = true ∧
      spanningPlayer.pos.y < 500 ∧
      Rounded.GetCollisionRec float32 (playerRect spanningPlayer) ⟨0, 500, 300, 20⟩
        = ⟨100, 500, 30, 20⟩ ∧
      Rounded.GetCollisionRec float32 (playerRect spanningPlayer) twinPlatform.rect
        = ⟨100, 500, 30, 20⟩ ∧
      (Rounded.collisionDetection float32 [⟨⟨0, 500, 300, 20⟩⟩, twinPlatform]
        spanningPlayer).pos.y = spanningPlayer.pos.y - 2 * 20 ∧
      (Rounded.collisionDetection float32 [⟨⟨0, 500, 300, 20⟩⟩, twinPlatform]
        spanningPlayer).grounded = true ∧
      (Rounded.collisionDetection float32 [⟨⟨0, 500, 300, 20⟩⟩, twinPlatform]
          spanningPlayer).pos.y +
        (Rounded.collisionDetection float32 [⟨⟨0, 500, 300, 20⟩⟩, twinPlatform]
          spanningPlayer).h ≠ 500 - 20 := by
  decide!

/-- C19, amended, for every arithmetic of the `float`s: when the only platforms
of the list for which the hit test succeeds on the player's rectangle (captured
before the loop) are `q1` and `q2`, which have the same top, the player's top is
above that top and is still above it after the first correction, and each
computed overlap has width not less than height and height `d`, the pass
subtracts `d` from `pos.y` twice and ends with `grounded = true`: the second
correction is computed from the captured rectangle, not from the corrected
position.  When moreover `d` is positive, the player's bottom edge is not below
the bottom edge of `q1`, and the sums and differences involved are values of
the arithmetic (nothing rounds), the bottom edge is left `d` above the
platforms' top. -/
theorem corrections_add_up (A : Arith) (p : Player) (l0 l1 l2 : List Platform)
    (q1 q2 : Platform) (d : ℚ)
    (hmiss : ∀ x ∈ l0 ++ l1 ++ l2, Rounded.CheckCollisionRecs A (playerRect p) x.rect = false)
    (hhit1 : Rounded.CheckCollisionRecs A (playerRect p) q1.rect = true)
    (hhit2 : Rounded.CheckCollisionRecs A (playerRect p) q2.rect = true)
    (htop : q1.rect.y = q2.rect.y) (habove : p.pos.y < q1.rect.y)
    (habove2 : A.rnd (p.pos.y - d) < q1.rect.y)
    (hv1 : ¬ ((Rounded.GetCollisionRec A (playerRect p) q1.rect).width <
      (Rounded.GetCollisionRec A (playerRect p) q1.rect).height))
    (hv2 : ¬ ((Rounded.GetCollisionRec A (playerRect p) q2.rect).width <
      (Rounded.GetCollisionRec A (playerRect p) q2.rect).height))
    (hd1 : (Rounded.GetCollisionRec A (playerRect p) q1.rect).height = d)
    (hd2 : (Rounded.GetCollisionRec A (playerRect p) q2.rect).height = d) :
    (Rounded.collisionDetection A (l0 ++ q1 :: (l1 ++ q2 :: l2)) p).pos.y =
        A.rnd (A.rnd (p.pos.y - d) - d) ∧
      (Rounded.collisionDetection A (l0 ++ q1 :: (l1 ++ q2 :: l2)) p).grounded = true ∧
      (0 < d → p.pos.y + p.h ≤ q1.rect.y + q1.rect.height →
        ExactOverlap A (playerRect p) q1.rect →
        A.rnd (p.pos.y - d) = p.pos.y - d →
        A.rnd (p.pos.y - d - d) = p.pos.y - d - d →
        (Rounded.collisionDetection A (l0 ++ q1 :: (l1 ++ q2 :: l2)) p).pos.y +
          (Rounded.collisionDetection A (l0 ++ q1 :: (l1 ++ q2 :: l2)) p).h
            = q1.rect.y - d) := by
  have hm0 : ∀ x ∈ l0, Rounded.CheckCollisionRecs A (playerRect p) x.rect = false :=
    fun x hx => hmiss x (List.mem_append_left _ (List.mem_append_left _ hx))
  have hm1 : ∀ x ∈ l1, Rounded.CheckCollisionRecs A (playerRect p) x.rect = false :=
    fun x hx => hmiss x (List.mem_append_left _ (List.mem_append_right _ hx))
  have hm2 : ∀ x ∈ l2, Rounded.CheckCollisionRecs A (playerRect p) x.rect = false :=
    fun x hx => hmiss x (List.mem_append_right _ hx)
  have hcd : Rounded.collisionDetection A (l0 ++ q1 :: (l1 ++ q2 :: l2)) p =
      Rounded.resolveCollision A (playerRect p)
        (Rounded.resolveCollision A (playerRect p) { p with grounded := false } q1) q2 := by
    unfold Rounded.collisionDetection
    rw [List.foldl_append, List.foldl_cons, List.foldl_append, List.foldl_cons,
      rnd_foldl_of_miss A _ l0 _ hm0, rnd_foldl_of_miss A _ l1 _ hm1,
      rnd_foldl_of_miss A _ l2 _ hm2]
  obtain ⟨_, _, hp1⟩ := rnd_resolveCollision_lands A (playerRect p)
    { p with grounded := false } q1 hhit1 hv1 habove
  rw [hd1] at hp1
  have hab2 : (Rounded.resolveCollision A (playerRect p) { p with grounded := false } q1).pos.y
      < q2.rect.y := by
    rw [hp1, ← htop]
    exact habove2
  obtain ⟨hg2, _, hp2⟩ := rnd_resolveCollision_lands A (playerRect p)
    (Rounded.resolveCollision A (playerRect p) { p with grounded := false } q1) q2
    hhit2 hv2 hab2
  rw [hd2, hp1] at hp2
  have hy : (Rounded.collisionDetection A (l0 ++ q1 :: (l1 ++ q2 :: l2)) p).pos.y =
      A.rnd (A.rnd (p.pos.y - d) - d) := by
    rw [hcd, hp2]
  refine ⟨hy, by rw [hcd]; exact hg2, ?_⟩
  intro hdpos hbot hex he1 he2
  have hde : (GetCollisionRec (playerRect p) q1.rect).height = d := by
    rw [← rnd_GetCollisionRec_eq A _ _ hex]
    exact hd1
  have hH := GetCollisionRec_height_of_pos (playerRect p) q1.rect (by rw [hde]; exact hdpos)
  rw [hde] at hH
  simp only [playerRect_y, playerRect_height] at hH
  rw [min_eq_left hbot, max_eq_right habove.le] at hH
  rw [hy, he1, he2, rnd_collisionDetection_h]
  linarith

/-- Witness for C19, on binary32: `landingPlayer`, ten units into the first
platform of `main` and into `twinPlatform`, is moved up by twenty. -/
theorem corrections_add_up_witness :
    Rounded.CheckCollisionRecs float32 (playerRect landingPlayer)
        (⟨⟨0, 500, 300, 20⟩⟩ : Platform).rect = true ∧
      Rounded.CheckCollisionRecs float32 (playerRect landingPlayer) twinPlatform.rect = true ∧
      (Rounded.collisionDetection float32 ([] ++ ⟨⟨0, 500, 300, 20⟩⟩ :: ([] ++ twinPlatform :: []))
        landingPlayer).pos.y = float32.rnd (float32.rnd (landingPlayer.pos.y - 10) - 10) ∧
      float32.rnd (float32.rnd (landingPlayer.pos.y - 10) - 10) = 450 ∧
      (Rounded.collisionDetection float32 ([] ++ ⟨⟨0, 500, 300, 20⟩⟩ :: ([] ++ twinPlatform :: []))
        landingPlayer).grounded = true ∧
      (Rounded.collisionDetection float32
          ([] ++ ⟨⟨0, 500, 300, 20⟩⟩ :: ([] ++ twinPlatform :: [])) landingPlayer).pos.y +
        (Rounded.collisionDetection float32
          ([] ++ ⟨⟨0, 500, 300, 20⟩⟩ :: ([] ++ twinPlatform :: [])) landingPlayer).h
            = (⟨⟨0, 500, 300, 20⟩⟩ : Platform).rect.y - 10 :=
  ⟨by decide!, by decide!,
    (corrections_add_up float32 landingPlayer [] [] [] ⟨⟨0, 500, 300, 20⟩⟩ twinPlatform 10
      (by decide!) (by decide!) (by decide!) (by decide!) (by decide!) (by decide!)
      (by decide!) (by decide!) (by decide!) (by decide!)).1,
    by decide!,
    (corrections_add_up float32 landingPlayer [] [] [] ⟨⟨0, 500, 300, 20⟩⟩ twinPlatform 10
      (by decide!) (by decide!) (by decide!) (by decide!) (by decide!) (by decide!)
      (by decide!) (by decide!) (by decide!) (by decide!)).2.1,
    (corrections_add_up float32 landingPlayer [] [] [] ⟨⟨0, 500, 300, 20⟩⟩ twinPlatform 10
      (by decide!) (by decide!) (by decide!) (by decide!) (by decide!) (by decide!)
      (by decide!) (by decide!) (by decide!) (by decide!)).2.2 (by decide!) (by decide!)
      (by decide!) (by decide!) (by decide!)⟩

/-- Why the amended C15, C16 and C19 ask that nothing rounds: on binary32 the
bottom edge `512 + 2 ^ -15` of `unevenPlayer` rounds to 512, so the computed
overlap with the first platform of `main` has height 12, the push leaves
`pos.y = 460 + 2 ^ -15`, and the hit test still succeeds. -/
theorem rounding_leaves_overlap :
    (Rounded.GetCollisionRec float32 (playerRect unevenPlayer) ⟨0, 500, 300, 20⟩).height = 12 ∧
      (Rounded.resolveCollision float32 (playerRect unevenPlayer) unevenPlayer
        ⟨⟨0, 500, 300, 20⟩⟩).pos.y = 460 + 1 / 2 ^ 15 ∧
      Rounded.CheckCollisionRecs float32
        (playerRect (Rounded.resolveCollision float32 (playerRect unevenPlayer) unevenPlayer
          ⟨⟨0, 500, 300, 20⟩⟩)) ⟨0, 500, 300, 20⟩ = true ∧
      ¬ ExactResolution float32 (playerRect unevenPlayer) unevenPlayer
        ⟨⟨0, 500, 300, 20⟩⟩ := by
  decide!

end Iced
